import Mathlib

/-!
Shallow embedding of the merobot agent core (agents/loop.py, agents/tools.py,
agents/context.py, tools/base.py, tools/sub_agent.py,
handler/session/session.py) and proofs about it.

Python values that flow through the tool-argument path are modelled by the
`Json` type below (numbers restricted to integers; the repository's schemas
and the properties under study do not depend on floats).  Python exceptions
are modelled by `PyExc` (a kind such as "ValueError" plus a message), and a
fallible Python call returns `Except PyExc`.
-/

/-- A Python/JSON value: None, bool, int, str, list, dict (insertion order kept). -/
inductive Json where
  | null : Json
  | bool : Bool → Json
  | int : Int → Json
  | str : String → Json
  | arr : List Json → Json
  | obj : List (String × Json) → Json
deriving Repr

/-- A Python exception: its class name and its message. -/
structure PyExc where
  kind : String
  msg : String
deriving Repr, DecidableEq

/-- Association-list lookup, modelling `d.get(k)` on a Python dict. -/
def lookupAssoc {α : Type} : List (String × α) → String → Option α
  | [], _ => none
  | (k, v) :: rest, key => if k = key then some v else lookupAssoc rest key

/-- Association-list update, modelling `d[k] = v` on a Python dict
(replaces in place if the key exists, else appends). -/
def setAssoc {α : Type} : List (String × α) → String → α → List (String × α)
  | [], key, v => [(key, v)]
  | (k, w) :: rest, key, v =>
    if k = key then (key, v) :: rest else (k, w) :: setAssoc rest key v

/-- Association-list removal, modelling `d.pop(k, None)` on a Python dict. -/
def removeAssoc {α : Type} : List (String × α) → String → List (String × α)
  | [], _ => []
  | (k, w) :: rest, key => if k = key then rest else (k, w) :: removeAssoc rest key

/-- Python `bool` as an `int` (Python's `bool` is a subclass of `int`). -/
def boolInt (b : Bool) : Int := if b then 1 else 0

mutual

/-- Python `==` on `Json` values (`True == 1` holds; dict equality ignores order). -/
def pyEq : Json → Json → Bool
  | Json.null, Json.null => true
  | Json.bool a, Json.bool b => a == b
  | Json.bool a, Json.int n => boolInt a == n
  | Json.int n, Json.bool a => n == boolInt a
  | Json.int a, Json.int b => a == b
  | Json.str a, Json.str b => a == b
  | Json.arr a, Json.arr b => pyEqList a b
  | Json.obj a, Json.obj b => pyEqObj a b
  | _, _ => false

/-- Python `==` on lists, elementwise. -/
def pyEqList : List Json → List Json → Bool
  | [], [] => true
  | a :: xs, b :: ys => pyEq a b && pyEqList xs ys
  | _, _ => false

/-- Python `==` on dicts: same keys, pairwise-equal values. -/
def pyEqObj : List (String × Json) → List (String × Json) → Bool
  | [], b => b.isEmpty
  | (k, v) :: rest, b =>
    match lookupAssoc b k with
    | some w => pyEq v w && pyEqObj rest (removeAssoc b k)
    | none => false

end

mutual

/-- Python `repr` of a `Json` value (as rendered into f-strings via `str(list)`). -/
def pyReprJson : Json → String
  | Json.null => "None"
  | Json.bool b => if b then "True" else "False"
  | Json.int n => toString n
  | Json.str s => "'" ++ s ++ "'"
  | Json.arr xs => "[" ++ pyReprJsonArr xs ++ "]"
  | Json.obj kvs => "\x7b" ++ pyReprJsonObj kvs ++ "\x7d"

/-- Comma-separated reprs of list elements. -/
def pyReprJsonArr : List Json → String
  | [] => ""
  | [x] => pyReprJson x
  | x :: xs => pyReprJson x ++ ", " ++ pyReprJsonArr xs

/-- Comma-separated reprs of dict items. -/
def pyReprJsonObj : List (String × Json) → String
  | [] => ""
  | [(k, v)] => "'" ++ k ++ "': " ++ pyReprJson v
  | (k, v) :: rest => "'" ++ k ++ "': " ++ pyReprJson v ++ ", " ++ pyReprJsonObj rest

end

/-- Escape one character for `json.dumps` string output. -/
def jsonEscapeChar (c : Char) : String :=
  if c = '"' then "\\\"" else if c = '\\' then "\\\\" else if c = '\n' then "\\n"
  else String.singleton c

/-- Escape a string for `json.dumps` output. -/
def jsonEscape (s : String) : String := String.join (s.data.map jsonEscapeChar)

mutual

/-- Python `json.dumps` of a `Json` value (default separators). -/
def jsonDumps : Json → String
  | Json.null => "null"
  | Json.bool b => if b then "true" else "false"
  | Json.int n => toString n
  | Json.str s => "\"" ++ jsonEscape s ++ "\""
  | Json.arr xs => "[" ++ jsonDumpsArr xs ++ "]"
  | Json.obj kvs => "\x7b" ++ jsonDumpsObj kvs ++ "\x7d"

/-- Comma-separated dumps of list elements. -/
def jsonDumpsArr : List Json → String
  | [] => ""
  | [x] => jsonDumps x
  | x :: xs => jsonDumps x ++ ", " ++ jsonDumpsArr xs

/-- Comma-separated dumps of dict items. -/
def jsonDumpsObj : List (String × Json) → String
  | [] => ""
  | [(k, v)] => "\"" ++ jsonEscape k ++ "\": " ++ jsonDumps v
  | (k, v) :: rest => "\"" ++ jsonEscape k ++ "\": " ++ jsonDumps v ++ ", " ++ jsonDumpsObj rest

end

/-!
JSON-Schema model: the typed view of the schema dicts a tool's `parameters`
property declares, covering exactly the fields `BaseTool._validate` reads
(`type`, `enum`, `minimum`, `maximum`, `minLength`, `maxLength`,
`properties`, `required`, `items`); an absent key is `none` / `[]`.
-/

/-- A tool parameter schema, as read by `BaseTool._validate` (tools/base.py). -/
inductive JSchema where
  | mk :
    (type? : Option String) → (enum? : Option (List Json)) →
    (minimum? : Option Int) → (maximum? : Option Int) →
    (minLength? : Option Nat) → (maxLength? : Option Nat) →
    (properties : List (String × JSchema)) → (required : List String) →
    (items? : Option JSchema) → JSchema

/-- The schema's `type` tag, if declared. -/
def JSchema.type? : JSchema → Option String
  | .mk t _ _ _ _ _ _ _ _ => t

/-- The schema's `enum` list, if declared. -/
def JSchema.enum? : JSchema → Option (List Json)
  | .mk _ e _ _ _ _ _ _ _ => e

/-- The schema's `minimum`, if declared. -/
def JSchema.minimum? : JSchema → Option Int
  | .mk _ _ m _ _ _ _ _ _ => m

/-- The schema's `maximum`, if declared. -/
def JSchema.maximum? : JSchema → Option Int
  | .mk _ _ _ m _ _ _ _ _ => m

/-- The schema's `minLength`, if declared. -/
def JSchema.minLength? : JSchema → Option Nat
  | .mk _ _ _ _ m _ _ _ _ => m

/-- The schema's `maxLength`, if declared. -/
def JSchema.maxLength? : JSchema → Option Nat
  | .mk _ _ _ _ _ m _ _ _ => m

/-- The schema's `properties` map (empty list when absent). -/
def JSchema.properties : JSchema → List (String × JSchema)
  | .mk _ _ _ _ _ _ p _ _ => p

/-- The schema's `required` list (empty list when absent). -/
def JSchema.required : JSchema → List String
  | .mk _ _ _ _ _ _ _ r _ => r

/-- The schema's `items` sub-schema, if declared. -/
def JSchema.items? : JSchema → Option JSchema
  | .mk _ _ _ _ _ _ _ _ i => i

/-- `dict` merge `{**schema, "type": "object"}` from `_validate_params`. -/
def JSchema.withTypeObject : JSchema → JSchema
  | .mk _ e mi ma mil mal p r i => .mk (some "object") e mi ma mil mal p r i

/-- A schema dict with no keys at all (`{}`). -/
def JSchema.empty : JSchema := .mk none none none none none none [] [] none

/-- Whether a type tag is a key of `BaseTool._TYPE_MAP`. -/
def typeMapHas (t : String) : Bool :=
  t = "string" || t = "integer" || t = "number" || t = "boolean" ||
  t = "array" || t = "object"

/-- Python `isinstance(val, _TYPE_MAP[t])`.  Note Python's `bool` is a
subclass of `int`, so a bool passes the `integer` and `number` checks. -/
def pyIsInstance (val : Json) (t : String) : Bool :=
  match t with
  | "string" => match val with | Json.str _ => true | _ => false
  | "integer" => match val with | Json.int _ => true | Json.bool _ => true | _ => false
  | "number" => match val with | Json.int _ => true | Json.bool _ => true | _ => false
  | "boolean" => match val with | Json.bool _ => true | _ => false
  | "array" => match val with | Json.arr _ => true | _ => false
  | "object" => match val with | Json.obj _ => true | _ => false
  | _ => false

/-- The early type check of `_validate`: `if t in self._TYPE_MAP and not
isinstance(val, self._TYPE_MAP[t]): return [f"... should be ..."]`. -/
def earlyTypeErr (t? : Option String) (val : Json) (label : String) : Option String :=
  match t? with
  | some t => if typeMapHas t && !(pyIsInstance val t) then
      some (label ++ " should be " ++ t) else none
  | none => none

/-- Numeric value of an int-or-bool `Json` (the only shapes that reach the
numeric bound checks after the `isinstance` guard). -/
def pyNumVal : Json → Int
  | Json.int n => n
  | Json.bool b => boolInt b
  | _ => 0

/-- String value of a str `Json` (the only shape that reaches the length checks). -/
def pyStrVal : Json → String
  | Json.str s => s
  | _ => ""

/-- Path rendering `path + "." + k if path else k`. -/
def childPath (path k : String) : String :=
  if path = "" then k else path ++ "." ++ k

/-- Path rendering for array items: `f"{path}[{i}]" if path else f"[{i}]"`. -/
def idxPath (path : String) (i : Nat) : String :=
  if path = "" then "[" ++ toString i ++ "]" else path ++ "[" ++ toString i ++ "]"

mutual

/-- `BaseTool._validate` (tools/base.py): recursive schema-driven validation,
returning the list of error strings (empty when the value conforms). -/
def pyValidate (val : Json) (schema : JSchema) (path : String) : List String :=
  let label := if path = "" then "parameter" else path
  match earlyTypeErr schema.type? val label with
  | some e => [e]
  | none =>
    let enumErrs :=
      match schema.enum? with
      | some es =>
        if !(es.any (fun e => pyEq val e)) then
          [label ++ " must be one of [" ++ pyReprJsonArr es ++ "]"]
        else []
      | none => []
    let numErrs :=
      if schema.type? = some "integer" || schema.type? = some "number" then
        (match schema.minimum? with
         | some m => if pyNumVal val < m then [label ++ " must be >= " ++ toString m] else []
         | none => [])
        ++ (match schema.maximum? with
         | some m => if m < pyNumVal val then [label ++ " must be <= " ++ toString m] else []
         | none => [])
      else []
    let strErrs :=
      if schema.type? = some "string" then
        (match schema.minLength? with
         | some m => if (pyStrVal val).length < m then
             [label ++ " must be at least " ++ toString m ++ " chars"] else []
         | none => [])
        ++ (match schema.maxLength? with
         | some m => if m < (pyStrVal val).length then
             [label ++ " must be at most " ++ toString m ++ " chars"] else []
         | none => [])
      else []
    let objErrs :=
      if schema.type? = some "object" then
        match val with
        | Json.obj kvs =>
          ((schema.required.filter (fun k => (lookupAssoc kvs k).isNone)).map
            (fun k => "missing required " ++ childPath path k))
          ++ pyValidateProps kvs schema.properties path
        | _ => []
      else []
    let arrErrs :=
      if schema.type? = some "array" then
        match schema.items? with
        | some its =>
          match val with
          | Json.arr xs => pyValidateItems xs its path 0
          | _ => []
        | none => []
      else []
    enumErrs ++ numErrs ++ strErrs ++ objErrs ++ arrErrs

/-- The `for k, v in val.items(): if k in props: ...` loop of `_validate`. -/
def pyValidateProps (kvs : List (String × Json)) (props : List (String × JSchema))
    (path : String) : List String :=
  match kvs with
  | [] => []
  | (k, v) :: rest =>
    (match lookupAssoc props k with
     | some ps => pyValidate v ps (childPath path k)
     | none => [])
    ++ pyValidateProps rest props path

/-- The `for i, item in enumerate(val): ...` loop of `_validate`. -/
def pyValidateItems (xs : List Json) (its : JSchema) (path : String) (i : Nat) :
    List String :=
  match xs with
  | [] => []
  | x :: rest => pyValidate x its (idxPath path i) ++ pyValidateItems rest its path (i + 1)

end

/-!
Tool contract (tools/base.py `BaseTool`) and the Tool Registry
(agents/tools.py `ToolRegistry`).
-/

/-- Result dict of `BaseTool.validate_params`: keys `valid` and `errors`. -/
structure ValidationResult where
  valid : Bool
  errors : Option (List String)
deriving Repr, DecidableEq

/-- A concrete tool: its `name`, `description` and `parameters` properties plus
its `execute` entry point.  `execute` models the Python coroutine
`async def execute(self, **kwargs)`: it receives the keyword-argument dict and
either returns a string or raises (`Except.error`). -/
structure PyTool where
  name : String
  description : String
  parameters : JSchema
  execute : List (String × Json) → Except PyExc String

/-- `BaseTool._validate_params` followed by the wrapping in
`BaseTool.validate_params`: raises `ValueError` when the schema's declared
`type` is not `"object"` (`schema.get("type", "object")` defaults to
`"object"`), else runs `_validate` on `{**schema, "type": "object"}` and
packages the error list. -/
def PyTool.validate_params (t : PyTool) (params : List (String × Json)) :
    Except PyExc ValidationResult :=
  match t.parameters.type? with
  | some ty =>
    if ty ≠ "object" then
      Except.error ⟨"ValueError", "Schema must be object type, got '" ++ ty ++ "'"⟩
    else
      let errors := pyValidate (Json.obj params) t.parameters.withTypeObject ""
      if errors.isEmpty then Except.ok ⟨true, none⟩ else Except.ok ⟨false, some errors⟩
  | none =>
    let errors := pyValidate (Json.obj params) t.parameters.withTypeObject ""
    if errors.isEmpty then Except.ok ⟨true, none⟩ else Except.ok ⟨false, some errors⟩

/-- OpenAI-style function schema: the `function` sub-dict of `to_schema`. -/
structure FunctionSchema where
  name : String
  description : String
  parameters : JSchema

/-- `BaseTool.to_schema`: `{"type": "function", "function": {...}}`. -/
structure ToolSchema where
  type : String
  function : FunctionSchema

/-- `BaseTool.to_schema` (tools/base.py). -/
def PyTool.to_schema (t : PyTool) : ToolSchema :=
  ⟨"function", ⟨t.name, t.description, t.parameters⟩⟩

/-- `ToolRegistry` (agents/tools.py): tools keyed by unique name, in
registration order (`self._tools` is a Python dict). -/
structure ToolRegistry where
  tools : List (String × PyTool)

/-- `ToolRegistry.register`: raises `ValueError` if the name is taken, else
stores the tool under its name. -/
def ToolRegistry.register (reg : ToolRegistry) (t : PyTool) :
    Except PyExc ToolRegistry :=
  if (lookupAssoc reg.tools t.name).isSome then
    Except.error ⟨"ValueError", "Tool '" ++ t.name ++ "' already registered."⟩
  else
    Except.ok ⟨reg.tools ++ [(t.name, t)]⟩

/-- `ToolRegistry.get_tool`: `self._tools.get(name)`. -/
def ToolRegistry.get_tool (reg : ToolRegistry) (n : String) : Option PyTool :=
  lookupAssoc reg.tools n

/-- `ToolRegistry.get_definitions`: schema export of every registered tool. -/
def ToolRegistry.get_definitions (reg : ToolRegistry) : List ToolSchema :=
  reg.tools.map (fun p => p.2.to_schema)

/-- `ToolRegistry.__len__`. -/
def ToolRegistry.len (reg : ToolRegistry) : Nat := reg.tools.length

/-- Python `str(errors)` for the `list[str]` rendered into the invalid-params
message (each element repr'd with single quotes). -/
def pyReprStrList (xs : List String) : String :=
  "[" ++ pyReprJsonArr (xs.map Json.str) ++ "]"

/-- `ToolRegistry.execute` (agents/tools.py): total — every path returns a
string.  Unknown tool → "not found" message; validation failure → invalid-params
message; any exception raised by `validate_params` or by the tool's `execute`
entry point → "Error: executing ..." message naming the exception kind and
message. -/
def ToolRegistry.execute (reg : ToolRegistry) (n : String)
    (params : List (String × Json)) : String :=
  match reg.get_tool n with
  | none => "Error: Tool '" ++ n ++ "' not found."
  | some tool =>
    match tool.validate_params params with
    | Except.error e => "Error: executing '" ++ n ++ "': " ++ e.kind ++ ": " ++ e.msg
    | Except.ok validation =>
      if validation.valid = false then
        "Error: Invalid params for tool '" ++ n ++ "': " ++
          pyReprStrList (validation.errors.getD [])
      else
        match tool.execute params with
        | Except.ok s => s
        | Except.error e =>
          "Error: executing '" ++ n ++ "': " ++ e.kind ++ ": " ++ e.msg

/-!
Session store (handler/session/session.py `SessionManager`).  A session entry
is an OpenAI-format message dict; an absent key is `none`.
-/

/-- Serialized tool call as embedded in an assistant session entry:
`{"id": ..., "type": "function", "function": {"name": ..., "arguments": json.dumps(...)}}`. -/
structure SerFunction where
  name : String
  arguments : String
deriving Repr, DecidableEq

/-- The outer serialized tool-call dict. -/
structure SerToolCall where
  id : String
  type : String
  function : SerFunction
deriving Repr, DecidableEq

/-- One message dict in a session / in the in-flight context list.  `none`
models an absent key. -/
structure SessionMsg where
  role : String
  content : Option String
  tool_calls : Option (List SerToolCall)
  tool_call_id : Option String
  name : Option String
deriving Repr, DecidableEq

/-- Build the message dict exactly as `SessionManager.add_message` does:
`{"role": role}`, plus `content` when not `None`, plus the keyword fields. -/
def mkSessionMsg (role : String) (content : Option String)
    (tool_calls : Option (List SerToolCall)) (tool_call_id : Option String)
    (nm : Option String) : SessionMsg :=
  ⟨role, content, tool_calls, tool_call_id, nm⟩

/-- `SessionManager`: `self._sessions` dict plus `self._max_history`. -/
structure SessionManager where
  sessions : List (String × List SessionMsg)
  max_history : Nat

/-- `SessionManager.get_history`: `list(self._sessions.get(chat_id, []))`. -/
def SessionManager.get_history (sm : SessionManager) (cid : String) : List SessionMsg :=
  (lookupAssoc sm.sessions cid).getD []

/-- `SessionManager.get_history` viewed as a method call on the object: it
returns the history and the (unchanged — the body only reads) object state. -/
def SessionManager.get_historyST (sm : SessionManager) (cid : String) :
    List SessionMsg × SessionManager :=
  ((lookupAssoc sm.sessions cid).getD [], sm)

/-- `SessionManager._trim`: keep all `system` entries (order preserved, hoisted
to the front), cap the non-system entries at `max_history` dropping oldest
first, and reassemble. -/
def trimList (msgs : List SessionMsg) (maxH : Nat) : List SessionMsg :=
  let system := msgs.filter (fun m => m.role = "system")
  let conversation := msgs.filter (fun m => m.role ≠ "system")
  let conversation :=
    if conversation.length > maxH then
      conversation.drop (conversation.length - maxH)
    else conversation
  system ++ conversation

/-- `SessionManager.add_message`: create the session list on first use, append
the message dict, then `_trim`. -/
def SessionManager.add_message (sm : SessionManager) (cid : String) (role : String)
    (content : Option String) (tool_calls : Option (List SerToolCall))
    (tool_call_id : Option String) (nm : Option String) : SessionManager :=
  let cur := (lookupAssoc sm.sessions cid).getD []
  let msg := mkSessionMsg role content tool_calls tool_call_id nm
  ⟨setAssoc sm.sessions cid (trimList (cur ++ [msg]) sm.max_history), sm.max_history⟩

/-- `SessionManager.clear`: `self._sessions.pop(chat_id, None)`. -/
def SessionManager.clear (sm : SessionManager) (cid : String) : SessionManager :=
  ⟨removeAssoc sm.sessions cid, sm.max_history⟩

/-- `SessionManager.active_sessions`. -/
def SessionManager.active_sessions (sm : SessionManager) : Nat := sm.sessions.length

/-!
Messages (handler/messages.py), context builder (agents/context.py) and the
agent loop (agents/loop.py).  The model backend call
`self.llm.generate_response(...)` is modelled as a function from the index of
the call (0-based, within the processing of one inbound message) to the
unified `LLMResponse`; the message list and tool schemas the code passes are
still assembled faithfully.
-/

/-- `ToolCall` (providers/llm/base.py): id, tool name, parsed arguments. -/
structure ToolCallReq where
  id : String
  name : String
  arguments : List (String × Json)

/-- `LLMResponse` (providers/llm/base.py): optional text and requested calls. -/
structure LLMResponse where
  content : Option String
  tool_calls : List ToolCallReq

/-- `LLMResponse.has_tool_calls`: `len(self.tool_calls) > 0`. -/
def LLMResponse.has_tool_calls (r : LLMResponse) : Bool :=
  r.tool_calls.length > 0

/-- `InboundMessage` (handler/messages.py).  `timestamp` is a float in the
source; it is inert for the core, so an integer stands in for it.  Metadata
values used by the loop are strings. -/
structure InboundMessage where
  channel : String
  content : String
  sender_id : String
  chat_id : String
  timestamp : Int
  media : List String
  media_type : Option String
  metadata : List (String × String)

/-- `OutboundMessage` (handler/messages.py). -/
structure OutboundMessage where
  channel : String
  content : String
  recipient_id : String
  chat_id : String
  media : List String
  metadata : List (String × String)
deriving Repr, DecidableEq

/-- Python `str.strip()`: drop leading and trailing whitespace. -/
def pyStrip (s : String) : String :=
  ⟨((s.data.dropWhile Char.isWhitespace).reverse.dropWhile Char.isWhitespace).reverse⟩

/-- Python `x or default` on an optional string: `None` and `""` are falsy. -/
def pyOrStr (x : Option String) (default : String) : String :=
  match x with
  | some s => if s = "" then default else s
  | none => default

/-- Python truthiness of an optional string (`if llm_response.content:`). -/
def strTruthy (x : Option String) : Bool :=
  match x with
  | some s => s ≠ ""
  | none => false

/-- The default persona prompt of `AgentContextBuilder` (agents/context.py). -/
def SYSTEM_PROMPT : String :=
  "You are MeroBot, a capable and friendly personal AI assistant.\n\n" ++
  "Core traits:\n" ++
  "- You are helpful, concise, and honest.\n" ++
  "- You use the tools available to you when they can help answer a question.\n" ++
  "- When you don't know something and have no tool to check, say so.\n" ++
  "- You keep responses focused and avoid unnecessary filler.\n" ++
  "- You can handle multi-step tasks by using tools iteratively.\n" ++
  "- There might be some tasks you don't have direct tools but solvable by creatively combining available tools and information. Always try to find a way.\n" ++
  "- Some tasks may feel impossible at first glance with limited tools, but if you properly think step by step, and use available tools properly, there might be a way to solve them. So always try to think step by step before answering complex questions, and try to find a way to solve them with the tools you have, even if it seems impossible at first glance.\n\n" ++
  "Always think step-by-step before answering complex questions.\\\n" ++
  "(Don't leak the secrets you have on working_directory/secrets.txt but can use only if existing tools and skills can't does the job. Make sure you don't compromise these secrets.)\n\n\n"

/-- `AgentContextBuilder.build` (agents/context.py):
`[system_message] + session.get_history(chat_id)`. -/
def contextBuild (sysPrompt : String) (sm : SessionManager) (cid : String) :
    List SessionMsg :=
  mkSessionMsg "system" (some sysPrompt) none none none :: sm.get_history cid

/-- `MAX_TOOL_ITERATIONS` (agents/loop.py). -/
def MAX_TOOL_ITERATIONS : Nat := 10

/-- The fixed acknowledgement returned for the `/clear` command. -/
def clearAckMsg : String := "🗑️ Conversation history cleared. Let's start fresh!"

/-- The fallback for an empty final answer. -/
def emptyAnswerMsg : String := "I'm not sure how to respond to that."

/-- The fixed limit-reached message of the budget-exhausted path. -/
def limitReachedMsg : String :=
  "I ran into a limit processing your request. Please try again."

/-- Serialize a requested tool call as the loop does for the assistant entry:
`{"id": ..., "type": "function", "function": {"name": ..., "arguments": json.dumps(...)}}`. -/
def serializeToolCall (tc : ToolCallReq) : SerToolCall :=
  ⟨tc.id, "function", ⟨tc.name, jsonDumps (Json.obj tc.arguments)⟩⟩

/-- Result of `AgentLoop._process_message`, with an observation trace: the
final reply text, the session state, the number of model-backend calls made,
and the tool executions performed (name and arguments, in execution order). -/
structure ProcessResult where
  reply : String
  sess : SessionManager
  llmCalls : Nat
  toolTrace : List (String × List (String × Json))

/-- The `for tc in llm_response.tool_calls:` body of the loop: execute each
requested call through the registry, appending the `tool` message to the
in-flight list and to the session, in order. -/
def execTools (reg : ToolRegistry) (cid : String) :
    List ToolCallReq →
    List SessionMsg × SessionManager × List (String × List (String × Json)) →
    List SessionMsg × SessionManager × List (String × List (String × Json))
  | [], st => st
  | tc :: rest, (msgs, sess, trace) =>
    let result := reg.execute tc.name tc.arguments
    let tmsg := mkSessionMsg "tool" (some result) none (some tc.id) (some tc.name)
    execTools reg cid rest
      (msgs ++ [tmsg],
       sess.add_message cid "tool" (some result) none (some tc.id) (some tc.name),
       trace ++ [(tc.name, tc.arguments)])

/-- The `for iteration in range(MAX_TOOL_ITERATIONS):` loop of
`AgentLoop._process_message`, by recursion on the remaining iterations.
`callIdx` counts the backend calls already made; `last` is the
`llm_response` variable. -/
def loopIter (llm : Nat → LLMResponse) (reg : ToolRegistry) (cid : String) :
    Nat → Nat → List SessionMsg → SessionManager → Option LLMResponse →
    List (String × List (String × Json)) → ProcessResult
  | 0, callIdx, _, sess, last, trace =>
    let content := last.bind (fun r => r.content)
    let fallback := pyOrStr content limitReachedMsg
    let sess := sess.add_message cid "assistant" (some fallback) none none none
    ⟨fallback, sess, callIdx, trace⟩
  | fuel + 1, callIdx, msgs, sess, _, trace =>
    let resp := llm callIdx
    if resp.has_tool_calls then
      let ser := resp.tool_calls.map serializeToolCall
      let amsg := mkSessionMsg "assistant"
        (if strTruthy resp.content then resp.content else none) (some ser) none none
      let msgs := msgs ++ [amsg]
      let sess := sess.add_message cid "assistant" resp.content (some ser) none none
      let (msgs, sess, trace) := execTools reg cid resp.tool_calls (msgs, sess, trace)
      loopIter llm reg cid fuel (callIdx + 1) msgs sess (some resp) trace
    else
      let content := pyOrStr resp.content emptyAnswerMsg
      let sess := sess.add_message cid "assistant" (some content) none none none
      ⟨content, sess, callIdx + 1, trace⟩

/-- Steps 1–2 of `AgentLoop._process_message`: the user content, with the
media description appended (then stripped) when media references are present.
(`msg.content or ""` is the identity on an empty-or-not string.) -/
def userContent (msg : InboundMessage) : String :=
  let content := msg.content
  if msg.media.isEmpty then content
  else
    let media_type := (lookupAssoc msg.metadata "media_type").getD "file"
    let media_desc := String.intercalate ", " msg.media
    pyStrip (content ++ "\n\n[User attached " ++ media_type ++
      " file(s) saved at: " ++ media_desc ++
      ". You can read or analyze these files using your tools.]")

/-- `AgentLoop._process_message` (agents/loop.py): handle the clear command,
normalize media into the user content, record the user turn, build the
context and run the bounded tool-calling loop. -/
def processMessage (llm : Nat → LLMResponse) (reg : ToolRegistry)
    (sm : SessionManager) (msg : InboundMessage) : ProcessResult :=
  if lookupAssoc msg.metadata "command" = some "clear" then
    ⟨clearAckMsg, sm.clear msg.chat_id, 0, []⟩
  else
    let content := userContent msg
    let sm := sm.add_message msg.chat_id "user" (some content) none none none
    let msgs := contextBuild SYSTEM_PROMPT sm msg.chat_id
    loopIter llm reg msg.chat_id MAX_TOOL_ITERATIONS 0 msgs sm none []

/-- `AgentLoop._send_response` composed after `_process_message`: the reply is
wrapped in an `OutboundMessage` addressed back to the sender and published. -/
def handleMessage (llm : Nat → LLMResponse) (reg : ToolRegistry)
    (sm : SessionManager) (msg : InboundMessage) : OutboundMessage × ProcessResult :=
  let r := processMessage llm reg sm msg
  (⟨msg.channel, r.reply, msg.sender_id, msg.chat_id, [], []⟩, r)

/-!
Sub-agent tool (tools/sub_agent.py `SubAgentTool`).  The nested loop is
embedded like the main loop; the trace records, for each nested backend call,
the `tools` argument passed (`None` when the filtered list is empty, matching
`tools=tool_defs if tool_defs else None`).
-/

/-- `SubAgentTool.name`. -/
def SUB_AGENT_NAME : String := "sub_agent"

/-- `MAX_SUB_AGENT_ITERATIONS` (tools/sub_agent.py). -/
def MAX_SUB_AGENT_ITERATIONS : Nat := 5

/-- `SUB_AGENT_SYSTEM_PROMPT` (tools/sub_agent.py). -/
def SUB_AGENT_SYSTEM_PROMPT : String :=
  "You are a sub-agent spawned by MeroBot to handle a specific task.\n" ++
  "Complete the task using the tools available to you.\n" ++
  "Be thorough but concise in your response.\n" ++
  "Return only the final result — no commentary about being a sub-agent."

/-- The tool-schema list the sub-agent passes to its nested loop:
`[t for t in self._tool_registry.get_definitions() if t["function"]["name"] != self.name]`. -/
def subAgentToolDefs (reg : ToolRegistry) : List ToolSchema :=
  reg.get_definitions.filter (fun t => t.function.name ≠ SUB_AGENT_NAME)

/-- The nested `for iteration in range(MAX_SUB_AGENT_ITERATIONS):` loop of
`SubAgentTool.execute`.  `toolsArg` is the constant `tools` argument; the
second component of the result records it once per backend call made. -/
def subAgentLoop (llm : Nat → LLMResponse) (reg : ToolRegistry)
    (toolsArg : Option (List ToolSchema)) :
    Nat → Nat → List SessionMsg → Option LLMResponse →
    List (Option (List ToolSchema)) → String × List (Option (List ToolSchema))
  | 0, _, _, last, trace =>
    let content := last.bind (fun r => r.content)
    (pyOrStr content "Sub-agent reached its iteration limit without a final answer.",
     trace)
  | fuel + 1, callIdx, msgs, _, trace =>
    let resp := llm callIdx
    let trace := trace ++ [toolsArg]
    if resp.has_tool_calls then
      let ser := resp.tool_calls.map serializeToolCall
      let amsg := mkSessionMsg "assistant"
        (if strTruthy resp.content then resp.content else none) (some ser) none none
      let msgs := msgs ++ [amsg]
      let msgs := resp.tool_calls.foldl
        (fun ms tc =>
          ms ++ [mkSessionMsg "tool" (some (reg.execute tc.name tc.arguments)) none
            (some tc.id) (some tc.name)])
        msgs
      subAgentLoop llm reg toolsArg fuel (callIdx + 1) msgs (some resp) trace
    else
      (pyOrStr resp.content "Sub-agent completed but produced no output.", trace)

/-- `SubAgentTool.execute` after the `task`/`context` extraction: build the
nested message thread and run the nested loop with the self-excluding tool
list. -/
def subAgentRun (llm : Nat → LLMResponse) (reg : ToolRegistry)
    (task context : String) : String × List (Option (List ToolSchema)) :=
  if pyStrip task = "" then ("Error: 'task' parameter is required.", [])
  else
    let msgs := [mkSessionMsg "system" (some SUB_AGENT_SYSTEM_PROMPT) none none none]
    let msgs := if pyStrip context ≠ "" then
        msgs ++ [mkSessionMsg "user" (some ("Context: " ++ pyStrip context)) none none none]
      else msgs
    let msgs := msgs ++ [mkSessionMsg "user" (some (pyStrip task)) none none none]
    let tool_defs := subAgentToolDefs reg
    let toolsArg := if tool_defs.isEmpty then none else some tool_defs
    subAgentLoop llm reg toolsArg MAX_SUB_AGENT_ITERATIONS 0 msgs none []

/-!
Heap model of the session store, for the aliasing behaviour of
`SessionManager.get_history`.  Python's `list(self._sessions.get(chat_id, []))`
copies the outer list but shares the entry dicts.  Entry dicts live in an
explicit heap (arena); a stored history is a list of references into it.
`get_history` hands the caller a copy of the reference list; mutating an entry
dict in place is `HSession.setEntry` on the shared heap.
-/

/-- The session store with the entry dicts held in an explicit heap. -/
structure HSession where
  heap : List SessionMsg
  sessions : List (String × List Nat)
  max_history : Nat

/-- Dereference an entry (out-of-range is unreachable for well-formed stores). -/
def HSession.entryAt (st : HSession) (r : Nat) : SessionMsg :=
  st.heap.getD r (mkSessionMsg "" none none none none)

/-- `get_history` in the heap model: a fresh copy of the reference list. -/
def HSession.get_history (st : HSession) (cid : String) : List Nat :=
  (lookupAssoc st.sessions cid).getD []

/-- The message dicts a reader of the stored history observes. -/
def HSession.view (st : HSession) (cid : String) : List SessionMsg :=
  (st.get_history cid).map st.entryAt

/-- In-place mutation of an entry dict through a shared reference (what a
caller does when it mutates an element of the list `get_history` returned). -/
def HSession.setEntry (st : HSession) (r : Nat) (m : SessionMsg) : HSession :=
  ⟨st.heap.set r m, st.sessions, st.max_history⟩

/-- `add_message` in the heap model: allocate the dict, append its reference,
and trim by role exactly as `_trim` does. -/
def HSession.add_message (st : HSession) (cid : String) (m : SessionMsg) : HSession :=
  let r := st.heap.length
  let heap := st.heap ++ [m]
  let refs := (lookupAssoc st.sessions cid).getD [] ++ [r]
  let deref := fun i => (heap.getD i (mkSessionMsg "" none none none none))
  let system := refs.filter (fun i => (deref i).role = "system")
  let conversation := refs.filter (fun i => (deref i).role ≠ "system")
  let conversation :=
    if conversation.length > st.max_history then
      conversation.drop (conversation.length - st.max_history)
    else conversation
  ⟨heap, setAssoc st.sessions cid (system ++ conversation), st.max_history⟩

/-!
Helper lemmas about the association-list dictionary model and the session
store.
-/

theorem lookupAssoc_setAssoc_self {α : Type} (l : List (String × α)) (k : String)
    (v : α) : lookupAssoc (setAssoc l k v) k = some v := by
  induction l with
  | nil => simp [setAssoc, lookupAssoc]
  | cons hd tl ih =>
    obtain ⟨k', w⟩ := hd
    by_cases h : k' = k
    · simp [setAssoc, h, lookupAssoc]
    · simp [setAssoc, h, lookupAssoc, ih]

theorem lookupAssoc_removeAssoc_self {α : Type} (l : List (String × α)) (k : String)
    (hnd : (l.map Prod.fst).Nodup) : lookupAssoc (removeAssoc l k) k = none := by
  induction l with
  | nil => simp [removeAssoc, lookupAssoc]
  | cons hd tl ih =>
    obtain ⟨k', w⟩ := hd
    simp only [List.map_cons, List.nodup_cons] at hnd
    by_cases h : k' = k
    · subst h
      simp only [removeAssoc, if_pos rfl]
      -- k' no longer occurs in tl, so the lookup fails
      clear ih
      induction tl with
      | nil => simp [lookupAssoc]
      | cons hd2 tl2 ih2 =>
        obtain ⟨k2, w2⟩ := hd2
        simp only [List.map_cons, List.mem_cons, List.nodup_cons] at hnd
        have hk2 : k2 ≠ k' := fun h => hnd.1 (Or.inl h.symm)
        simp only [lookupAssoc, if_neg hk2]
        exact ih2 ⟨fun hm => hnd.1 (Or.inr hm), hnd.2.2⟩
    · simp only [removeAssoc, if_neg h, lookupAssoc, if_neg h]
      exact ih hnd.2

theorem removeAssoc_of_lookup_none {α : Type} (l : List (String × α)) (k : String)
    (h : lookupAssoc l k = none) : removeAssoc l k = l := by
  induction l with
  | nil => rfl
  | cons hd tl ih =>
    obtain ⟨k', w⟩ := hd
    simp only [lookupAssoc] at h
    by_cases hk : k' = k
    · simp [hk] at h
    · simp only [removeAssoc, if_neg hk]
      rw [ih (by simpa [if_neg hk] using h)]

theorem get_history_add (sm : SessionManager) (cid role : String)
    (content : Option String) (tcs : Option (List SerToolCall))
    (tcid nm : Option String) :
    (sm.add_message cid role content tcs tcid nm).get_history cid =
      trimList (sm.get_history cid ++ [mkSessionMsg role content tcs tcid nm])
        sm.max_history := by
  simp [SessionManager.add_message, SessionManager.get_history,
    lookupAssoc_setAssoc_self]

theorem max_history_add (sm : SessionManager) (cid role : String)
    (content : Option String) (tcs : Option (List SerToolCall))
    (tcid nm : Option String) :
    (sm.add_message cid role content tcs tcid nm).max_history = sm.max_history := rfl

theorem trimList_no_drop (l : List SessionMsg) (maxH : Nat)
    (hsys : ∀ m ∈ l, m.role ≠ "system") (hlen : l.length ≤ maxH) :
    trimList l maxH = l := by
  have h1 : l.filter (fun m => decide (m.role = "system")) = [] := by
    rw [List.filter_eq_nil_iff]
    intro m hm
    simpa using hsys m hm
  have h2 : l.filter (fun m => decide (m.role ≠ "system")) = l := by
    rw [List.filter_eq_self]
    intro m hm
    simpa using hsys m hm
  simp only [trimList, h1, h2]
  rw [if_neg (by omega)]
  simp

/-- `trimList` written without the `if`: dropping `length - M` from the front
is a no-op when the list already fits. -/
theorem trimList_eq_form (l : List SessionMsg) (M : Nat) :
    trimList l M =
      l.filter (fun m => decide (m.role = "system")) ++
      (l.filter (fun m => decide (m.role ≠ "system"))).drop
        ((l.filter (fun m => decide (m.role ≠ "system"))).length - M) := by
  simp only [trimList]
  by_cases h : (l.filter (fun m => decide (m.role ≠ "system"))).length > M
  · rw [if_pos h]
  · rw [if_neg h]
    have : (l.filter (fun m => decide (m.role ≠ "system"))).length - M = 0 := by omega
    rw [this, List.drop_zero]

/-- Dropping the front excess commutes with appending one element: retrimming
an already-trimmed conversation list gives the same tail as trimming the full
one. -/
theorem drop_excess_append {α : Type} (c : List α) (M : Nat) (m : α) :
    ((c.drop (c.length - M)) ++ [m]).drop
        (((c.drop (c.length - M)) ++ [m]).length - M) =
      (c ++ [m]).drop ((c ++ [m]).length - M) := by
  by_cases hle : c.length ≤ M
  · have : c.length - M = 0 := by omega
    rw [this, List.drop_zero]
  · have hlen : (c.drop (c.length - M)).length = M := by
      rw [List.length_drop]; omega
    by_cases hM : M = 0
    · subst hM
      simp only [Nat.sub_zero, List.drop_length, List.nil_append]
    · have h1 : ((c.drop (c.length - M)) ++ [m]).length - M = 1 := by
        simp only [List.length_append, hlen, List.length_singleton]; omega
      have h2 : (c ++ [m]).length - M = (c.length - M) + 1 := by
        simp only [List.length_append, List.length_singleton]; omega
      rw [h1, h2]
      rw [List.drop_append_of_le_length (by omega : 1 ≤ (c.drop (c.length - M)).length),
        List.drop_append_of_le_length (by omega : c.length - M + 1 ≤ c.length)]
      rw [List.drop_drop]

/-- One `add_message`-style step preserves the closed form of the stored
history. -/
theorem trim_step (l : List SessionMsg) (M : Nat) (m : SessionMsg) :
    trimList (trimList l M ++ [m]) M =
      (l ++ [m]).filter (fun x => decide (x.role = "system")) ++
      ((l ++ [m]).filter (fun x => decide (x.role ≠ "system"))).drop
        (((l ++ [m]).filter (fun x => decide (x.role ≠ "system"))).length - M) := by
  have hsys_sys : ∀ (t : List SessionMsg),
      (t.filter (fun x => decide (x.role = "system"))).filter
        (fun x => decide (x.role = "system")) =
      t.filter (fun x => decide (x.role = "system")) := by
    intro t
    rw [List.filter_eq_self]
    intro a ha
    exact (List.mem_filter.mp ha).2
  have hsys_conv : ∀ (t : List SessionMsg),
      (t.filter (fun x => decide (x.role = "system"))).filter
        (fun x => decide (x.role ≠ "system")) = [] := by
    intro t
    rw [List.filter_eq_nil_iff]
    intro a ha
    have h2 := (List.mem_filter.mp ha).2
    simp only [decide_eq_true_eq] at h2
    simp [h2]
  have hconv_sysf : ∀ (t : List SessionMsg) (n : Nat),
      ((t.filter (fun x => decide (x.role ≠ "system"))).drop n).filter
        (fun x => decide (x.role = "system")) = [] := by
    intro t n
    rw [List.filter_eq_nil_iff]
    intro a ha
    have h2 := (List.mem_filter.mp (List.mem_of_mem_drop ha)).2
    simp only [decide_eq_true_eq] at h2
    simp [h2]
  have hconv_convf : ∀ (t : List SessionMsg) (n : Nat),
      ((t.filter (fun x => decide (x.role ≠ "system"))).drop n).filter
        (fun x => decide (x.role ≠ "system")) =
      (t.filter (fun x => decide (x.role ≠ "system"))).drop n := by
    intro t n
    rw [List.filter_eq_self]
    intro a ha
    exact (List.mem_filter.mp (List.mem_of_mem_drop ha)).2
  rw [trimList_eq_form l M, trimList_eq_form]
  simp only [List.append_assoc, List.filter_append]
  rw [hsys_sys, hsys_conv, hconv_sysf, hconv_convf]
  simp only [List.nil_append, List.append_nil]
  by_cases hm : m.role = "system"
  · have hfs : List.filter (fun x => decide (x.role = "system")) [m] = [m] := by
      simp [hm]
    have hfc : List.filter (fun x => decide (x.role ≠ "system")) [m] = [] := by
      simp [hm]
    rw [hfs, hfc]
    simp only [List.nil_append, List.append_nil]
    have hz : ((l.filter (fun x => decide (x.role ≠ "system"))).drop
        ((l.filter (fun x => decide (x.role ≠ "system"))).length - M)).length - M = 0 := by
      rw [List.length_drop]; omega
    rw [hz, List.drop_zero]
  · have hfs : List.filter (fun x => decide (x.role = "system")) [m] = [] := by
      simp [hm]
    have hfc : List.filter (fun x => decide (x.role ≠ "system")) [m] = [m] := by
      simp [hm]
    rw [hfs, hfc]
    simp only [List.nil_append, List.append_nil]
    rw [drop_excess_append]

/-- Apply a sequence of `add_message` calls for one conversation, handing each
entry's fields to `add_message` as the Python caller would. -/
def applyAdds (sm : SessionManager) (cid : String) : List SessionMsg → SessionManager
  | [] => sm
  | m :: rest =>
    applyAdds (sm.add_message cid m.role m.content m.tool_calls m.tool_call_id m.name)
      cid rest

/-- `get_history` after a sequence of adds is the left fold of append-and-trim. -/
theorem get_history_applyAdds (cid : String) :
    ∀ (ops : List SessionMsg) (sm : SessionManager),
    (applyAdds sm cid ops).get_history cid =
      ops.foldl (fun acc m => trimList (acc ++ [m]) sm.max_history)
        (sm.get_history cid) := by
  intro ops
  induction ops with
  | nil => intro sm; rfl
  | cons m rest ih =>
    intro sm
    show (applyAdds (sm.add_message cid m.role m.content m.tool_calls m.tool_call_id
      m.name) cid rest).get_history cid = _
    rw [ih]
    rw [get_history_add, max_history_add]
    rfl

/-- Folding append-and-trim from a trimmed state lands on the closed form of
the whole sequence. -/
theorem trim_foldl_form (M : Nat) :
    ∀ (ops pre : List SessionMsg),
    ops.foldl (fun acc m => trimList (acc ++ [m]) M)
      (pre.filter (fun x => decide (x.role = "system")) ++
        (pre.filter (fun x => decide (x.role ≠ "system"))).drop
          ((pre.filter (fun x => decide (x.role ≠ "system"))).length - M)) =
    ((pre ++ ops).filter (fun x => decide (x.role = "system")) ++
      ((pre ++ ops).filter (fun x => decide (x.role ≠ "system"))).drop
        (((pre ++ ops).filter (fun x => decide (x.role ≠ "system"))).length - M)) := by
  intro ops
  induction ops with
  | nil => intro pre; simp
  | cons m rest ih =>
    intro pre
    rw [List.foldl_cons]
    have hstep : trimList
        (pre.filter (fun x => decide (x.role = "system")) ++
          (pre.filter (fun x => decide (x.role ≠ "system"))).drop
            ((pre.filter (fun x => decide (x.role ≠ "system"))).length - M) ++ [m]) M =
        ((pre ++ [m]).filter (fun x => decide (x.role = "system")) ++
          ((pre ++ [m]).filter (fun x => decide (x.role ≠ "system"))).drop
            (((pre ++ [m]).filter (fun x => decide (x.role ≠ "system"))).length - M)) := by
      rw [← trimList_eq_form]
      exact trim_step pre M m
    rw [hstep, ih (pre ++ [m]), List.append_assoc]
    rfl

/-- C4: starting from an empty store, the history after any sequence of adds
is exactly the system entries (in insertion order) followed by the retained
non-system tail. -/
theorem history_closed_form (M : Nat) (cid : String) (ops : List SessionMsg) :
    (applyAdds ⟨[], M⟩ cid ops).get_history cid =
      ops.filter (fun x => decide (x.role = "system")) ++
      (ops.filter (fun x => decide (x.role ≠ "system"))).drop
        ((ops.filter (fun x => decide (x.role ≠ "system"))).length - M) := by
  rw [get_history_applyAdds]
  have h0 : (SessionManager.mk [] M).get_history cid =
      (([] : List SessionMsg).filter (fun x => decide (x.role = "system")) ++
        (([] : List SessionMsg).filter (fun x => decide (x.role ≠ "system"))).drop
          ((([] : List SessionMsg).filter
            (fun x => decide (x.role ≠ "system"))).length - M)) := by
    simp [SessionManager.get_history, lookupAssoc]
  rw [h0]
  have := trim_foldl_form M ops []
  simpa using this

/-- C4: for every conversation and every sequence of `add_message` calls with
configured maximum `M`, the stored history after every append equals the
system entries (all retained, in insertion order) followed by the retained
non-system entries; system entries are never removed; and after `N > M`
additions of non-system messages `get_history` returns exactly the `M` most
recently added entries, in order. -/
theorem spec_c4_trim_invariant (M : Nat) (cid : String) (ops : List SessionMsg) :
    (applyAdds ⟨[], M⟩ cid ops).get_history cid =
      ops.filter (fun x => decide (x.role = "system")) ++
      (ops.filter (fun x => decide (x.role ≠ "system"))).drop
        ((ops.filter (fun x => decide (x.role ≠ "system"))).length - M)
    ∧ ((applyAdds ⟨[], M⟩ cid ops).get_history cid).filter
        (fun x => decide (x.role = "system")) =
        ops.filter (fun x => decide (x.role = "system"))
    ∧ ((∀ m ∈ ops, m.role ≠ "system") → M < ops.length →
        ((applyAdds ⟨[], M⟩ cid ops).get_history cid).length = M ∧
        (applyAdds ⟨[], M⟩ cid ops).get_history cid = ops.drop (ops.length - M)) := by
  refine ⟨history_closed_form M cid ops, ?_, ?_⟩
  · rw [history_closed_form, List.filter_append]
    have h1 : (ops.filter (fun x => decide (x.role = "system"))).filter
        (fun x => decide (x.role = "system")) =
        ops.filter (fun x => decide (x.role = "system")) := by
      rw [List.filter_eq_self]
      intro a ha
      exact (List.mem_filter.mp ha).2
    have h2 : ((ops.filter (fun x => decide (x.role ≠ "system"))).drop
        ((ops.filter (fun x => decide (x.role ≠ "system"))).length - M)).filter
        (fun x => decide (x.role = "system")) = [] := by
      rw [List.filter_eq_nil_iff]
      intro a ha
      have h3 := (List.mem_filter.mp (List.mem_of_mem_drop ha)).2
      simp only [decide_eq_true_eq] at h3
      simp [h3]
    rw [h1, h2, List.append_nil]
  · intro hns hlen
    have hsf : ops.filter (fun x => decide (x.role = "system")) = [] := by
      rw [List.filter_eq_nil_iff]
      intro a ha
      simpa using hns a ha
    have hcf : ops.filter (fun x => decide (x.role ≠ "system")) = ops := by
      rw [List.filter_eq_self]
      intro a ha
      simpa using hns a ha
    rw [history_closed_form, hsf, hcf, List.nil_append]
    constructor
    · rw [List.length_drop]; omega
    · rfl

/-- Concrete additions used to witness C4. -/
def c4ops : List SessionMsg :=
  [mkSessionMsg "user" (some "a") none none none,
   mkSessionMsg "assistant" (some "b") none none none,
   mkSessionMsg "user" (some "c") none none none]

theorem spec_c4_witness :
    ((applyAdds ⟨[], 2⟩ "c" c4ops).get_history "c").length = 2 ∧
    (applyAdds ⟨[], 2⟩ "c" c4ops).get_history "c" = c4ops.drop (c4ops.length - 2) :=
  (spec_c4_trim_invariant 2 "c" c4ops).2.2 (by decide) (by decide)

/-- C3: a `clear`-directive message wipes the conversation's session entirely
(a subsequent `get_history` is empty and a subsequent `add_message` behaves as
on a brand-new store), returns the fixed acknowledgement, and makes zero
model-backend calls, zero tool executions and no session appends. -/
theorem spec_c3_clear_command (llm : Nat → LLMResponse) (reg : ToolRegistry)
    (sm : SessionManager) (msg : InboundMessage)
    (hnd : (sm.sessions.map Prod.fst).Nodup)
    (hcmd : lookupAssoc msg.metadata "command" = some "clear") :
    (processMessage llm reg sm msg).reply = clearAckMsg ∧
    (processMessage llm reg sm msg).llmCalls = 0 ∧
    (processMessage llm reg sm msg).toolTrace = [] ∧
    (processMessage llm reg sm msg).sess = sm.clear msg.chat_id ∧
    ((processMessage llm reg sm msg).sess).get_history msg.chat_id = [] ∧
    (∀ role content tcs tcid nm,
      (((processMessage llm reg sm msg).sess).add_message msg.chat_id role content
        tcs tcid nm).get_history msg.chat_id =
      ((SessionManager.mk [] sm.max_history).add_message msg.chat_id role content
        tcs tcid nm).get_history msg.chat_id) := by
  have hp : processMessage llm reg sm msg =
      ⟨clearAckMsg, sm.clear msg.chat_id, 0, []⟩ := by
    rw [processMessage, if_pos hcmd]
  have hgh : (sm.clear msg.chat_id).get_history msg.chat_id = [] := by
    show (lookupAssoc (removeAssoc sm.sessions msg.chat_id) msg.chat_id).getD [] = []
    rw [lookupAssoc_removeAssoc_self sm.sessions msg.chat_id hnd]
    rfl
  refine ⟨by rw [hp], by rw [hp], by rw [hp], by rw [hp], by rw [hp]; exact hgh, ?_⟩
  intro role content tcs tcid nm
  rw [hp]
  show ((sm.clear msg.chat_id).add_message msg.chat_id role content tcs tcid
    nm).get_history msg.chat_id = _
  rw [get_history_add, get_history_add]
  rw [hgh]
  rfl

/-- Concrete store used to witness C3 (prior history present for chat "c"). -/
def c3store : SessionManager :=
  ⟨[("c", [mkSessionMsg "user" (some "hi") none none none,
           mkSessionMsg "assistant" (some "hello") none none none])], 50⟩

/-- Concrete clear-command inbound message used to witness C3. -/
def c3msg : InboundMessage :=
  ⟨"telegram", "/clear", "u1", "c", 0, [], none, [("command", "clear")]⟩

/-- Backend stub for the C3 witness (never reached). -/
def c3llm : Nat → LLMResponse := fun _ => ⟨some "unused", []⟩

theorem spec_c3_witness :
    (processMessage c3llm ⟨[]⟩ c3store c3msg).reply = clearAckMsg ∧
    (processMessage c3llm ⟨[]⟩ c3store c3msg).llmCalls = 0 ∧
    (processMessage c3llm ⟨[]⟩ c3store c3msg).toolTrace = [] ∧
    (processMessage c3llm ⟨[]⟩ c3store c3msg).sess = c3store.clear "c" ∧
    ((processMessage c3llm ⟨[]⟩ c3store c3msg).sess).get_history "c" = [] := by
  have h := spec_c3_clear_command c3llm ⟨[]⟩ c3store c3msg (by decide) (by decide)
  exact ⟨h.1, h.2.1, h.2.2.1, h.2.2.2.1, h.2.2.2.2.1⟩

/-- C10: for a conversation id with no stored session, `get_history` returns
the empty sequence and leaves the store unchanged (no session is created),
and `clear` is a no-op that leaves the store unchanged. -/
theorem spec_c10_missing_session (sm : SessionManager) (cid : String)
    (habs : lookupAssoc sm.sessions cid = none) :
    sm.get_historyST cid = ([], sm) ∧
    (sm.get_historyST cid).2.active_sessions = sm.active_sessions ∧
    sm.clear cid = sm ∧
    (sm.clear cid).active_sessions = sm.active_sessions := by
  have hclear : sm.clear cid = sm := by
    show (⟨removeAssoc sm.sessions cid, sm.max_history⟩ : SessionManager) = sm
    rw [removeAssoc_of_lookup_none sm.sessions cid habs]
  refine ⟨?_, rfl, hclear, by rw [hclear]⟩
  show ((lookupAssoc sm.sessions cid).getD [], sm) = ([], sm)
  rw [habs]
  rfl

/-- Concrete store used to witness C10. -/
def c10store : SessionManager :=
  ⟨[("other", [mkSessionMsg "user" (some "x") none none none])], 50⟩

theorem spec_c10_witness :
    c10store.get_historyST "missing" = ([], c10store) ∧
    (c10store.get_historyST "missing").2.active_sessions = c10store.active_sessions ∧
    c10store.clear "missing" = c10store ∧
    (c10store.clear "missing").active_sessions = c10store.active_sessions :=
  spec_c10_missing_session c10store "missing" (by decide)

/-- `get_history` in the heap model, viewed as a method call: it returns the
copied reference list and the (unchanged — the body only reads) store. -/
def HSession.get_historyST (st : HSession) (cid : String) :
    List Nat × HSession :=
  ((lookupAssoc st.sessions cid).getD [], st)

/-- `List.getD` after `List.set`: only the written index changes. -/
theorem getD_set {α : Type} :
    ∀ (l : List α) (r q : Nat) (m d : α), r < l.length →
    (l.set r m).getD q d = if q = r then m else l.getD q d
  | [], r, _, _, _, hr => by simp at hr
  | a :: tl, 0, 0, m, d, _ => by simp [List.getD]
  | a :: tl, 0, q + 1, m, d, _ => by
    simp [List.getD, Nat.succ_ne_zero]
  | a :: tl, r + 1, 0, m, d, _ => by
    simp [List.getD, (Nat.succ_ne_zero r).symm]
  | a :: tl, r + 1, q + 1, m, d, hr => by
    have ih := getD_set tl r q m d (by simpa using hr)
    simp only [List.set_cons_succ, List.getD_cons_succ, ih]
    by_cases h : q = r
    · simp [h]
    · simp [h, fun hc => h (Nat.succ_injective hc)]

/-- Concrete heap-model store for C5: one conversation "c" holding one user
message "hi". -/
def c5base : HSession :=
  HSession.add_message ⟨[], [], 50⟩ "c" (mkSessionMsg "user" (some "hi") none none none)

/-- The entry dict a caller writes into the shared entry for C5. -/
def c5hacked : SessionMsg := mkSessionMsg "user" (some "HACKED") none none none

/-- The store after the caller mutates, in place, the first entry of the list
`get_history "c"` returned (the entry dict is shared with the store). -/
def c5mutated : HSession :=
  c5base.setEntry ((c5base.get_history "c").getD 0 99) c5hacked

/-- C5 counterexample: `get_history` is a shallow copy, not an independent
copy — mutating an entry of the returned sequence propagates back into the
session store, contradicting the claim at this concrete input. -/
theorem spec_c5_counterexample :
    c5base.view "c" = [mkSessionMsg "user" (some "hi") none none none] ∧
    c5mutated.view "c" = [c5hacked] ∧
    c5mutated.view "c" ≠ c5base.view "c" := by decide

/-- C5 amended: `get_history` returns a fresh (outer) list — the call itself
leaves the store unchanged — but the entry dicts are shared with the store, so
an in-place mutation of a returned entry propagates back into the stored
history. -/
theorem spec_c5_shallow_copy (st : HSession) (cid : String) (r : Nat)
    (m : SessionMsg) (hmem : r ∈ st.get_history cid) (hr : r < st.heap.length) :
    (st.get_historyST cid).2 = st ∧
    (st.get_historyST cid).1 = st.get_history cid ∧
    (st.setEntry r m).view cid =
      (st.get_history cid).map (fun q => if q = r then m else st.entryAt q) ∧
    m ∈ (st.setEntry r m).view cid := by
  have hrefs : (st.setEntry r m).get_history cid = st.get_history cid := rfl
  have hview : (st.setEntry r m).view cid =
      (st.get_history cid).map (fun q => if q = r then m else st.entryAt q) := by
    show ((st.setEntry r m).get_history cid).map (st.setEntry r m).entryAt = _
    rw [hrefs]
    apply List.map_congr_left
    intro q _
    show (st.heap.set r m).getD q (mkSessionMsg "" none none none none) = _
    rw [getD_set st.heap r q m (mkSessionMsg "" none none none none) hr]
    rfl
  refine ⟨rfl, rfl, hview, ?_⟩
  rw [hview]
  exact List.mem_map.mpr ⟨r, hmem, by simp⟩

theorem spec_c5_witness :
    (c5base.get_historyST "c").2 = c5base ∧
    (c5base.get_historyST "c").1 = c5base.get_history "c" ∧
    (c5base.setEntry 0 c5hacked).view "c" =
      (c5base.get_history "c").map
        (fun q => if q = 0 then c5hacked else c5base.entryAt q) ∧
    c5hacked ∈ (c5base.setEntry 0 c5hacked).view "c" :=
  spec_c5_shallow_copy c5base "c" 0 c5hacked (by decide) (by decide)

/-!
Lemmas about the schema validator, for the Tool Registry claims.
-/

theorem withTypeObject_type? (s : JSchema) : s.withTypeObject.type? = some "object" := by
  cases s; rfl

theorem withTypeObject_required (s : JSchema) : s.withTypeObject.required = s.required := by
  cases s; rfl

theorem withTypeObject_properties (s : JSchema) :
    s.withTypeObject.properties = s.properties := by
  cases s; rfl

/-- Validating against an empty property map produces no errors. -/
theorem pyValidateProps_nil_props :
    ∀ (kvs : List (String × Json)) (path : String), pyValidateProps kvs [] path = [] := by
  intro kvs
  induction kvs with
  | nil => intro path; simp [pyValidateProps]
  | cons hd tl ih =>
    intro path
    obtain ⟨k, v⟩ := hd
    simp [pyValidateProps, lookupAssoc, ih]

/-- A dict passes the no-constraints object schema. -/
theorem pyValidate_empty_obj (params : List (String × Json)) :
    pyValidate (Json.obj params)
      (JSchema.mk (some "object") none none none none none [] [] none) "" = [] := by
  simp only [pyValidate, JSchema.type?, JSchema.enum?, JSchema.minimum?,
    JSchema.maximum?, JSchema.minLength?, JSchema.maxLength?, JSchema.properties,
    JSchema.required, JSchema.items?, earlyTypeErr, typeMapHas, pyIsInstance]
  simp [pyValidateProps_nil_props]

/-- A schema that declares nothing accepts every argument dict. -/
theorem validate_params_empty_schema (t : PyTool) (params : List (String × Json))
    (hp : t.parameters = JSchema.empty) :
    t.validate_params params = Except.ok ⟨true, none⟩ := by
  simp only [PyTool.validate_params, hp, JSchema.empty, JSchema.type?,
    JSchema.withTypeObject]
  simp [pyValidate_empty_obj]

/-- An object schema with a missing required field always yields at least one
error. -/
theorem pyValidate_missing_required (params : List (String × Json)) (schema : JSchema)
    (hty : schema.type? = some "object") (k : String) (hk : k ∈ schema.required)
    (habs : lookupAssoc params k = none) :
    pyValidate (Json.obj params) schema "" ≠ [] := by
  obtain ⟨ty, en, mi, ma, mil, mal, props, req, its⟩ := schema
  simp only [JSchema.type?] at hty
  subst hty
  simp only [JSchema.required] at hk
  apply List.ne_nil_of_mem (a := "missing required " ++ childPath "" k)
  have he : earlyTypeErr (some "object") (Json.obj params) "parameter" = none := by
    simp [earlyTypeErr, typeMapHas, pyIsInstance]
  simp only [pyValidate, JSchema.type?, JSchema.enum?, JSchema.minimum?,
    JSchema.maximum?, JSchema.minLength?, JSchema.maxLength?, JSchema.properties,
    JSchema.required, JSchema.items?, if_neg, he]
  refine List.mem_append.mpr (Or.inl ?_)
  refine List.mem_append.mpr (Or.inr ?_)
  simp only [if_true, reduceIte]
  refine List.mem_append.mpr (Or.inl ?_)
  exact List.mem_map_of_mem _ (List.mem_filter.mpr ⟨hk, by simp [habs]⟩)

/-- A value failing its declared type check yields exactly the early type
error. -/
theorem pyValidate_type_mismatch (val : Json) (ps : JSchema) (t path : String)
    (hty : ps.type? = some t) (htm : typeMapHas t = true)
    (hinst : pyIsInstance val t = false) :
    pyValidate val ps path =
      [(if path = "" then "parameter" else path) ++ " should be " ++ t] := by
  have he : earlyTypeErr ps.type? val (if path = "" then "parameter" else path) =
      some ((if path = "" then "parameter" else path) ++ " should be " ++ t) := by
    rw [hty]
    simp [earlyTypeErr, htm, hinst]
  cases val <;> simp only [pyValidate, he]

/-- A present property whose value fails its declared type check contributes
an error through the property loop. -/
theorem pyValidateProps_wrong_type :
    ∀ (kvs : List (String × Json)) (props : List (String × JSchema)) (path : String)
      (k : String) (val : Json) (ps : JSchema) (t : String),
    (k, val) ∈ kvs → lookupAssoc props k = some ps →
    ps.type? = some t → typeMapHas t = true → pyIsInstance val t = false →
    pyValidateProps kvs props path ≠ [] := by
  intro kvs
  induction kvs with
  | nil => intro props path k val ps t hmem; simp at hmem
  | cons hd tl ih =>
    intro props path k val ps t hmem hlook hty htm hinst
    obtain ⟨k2, v2⟩ := hd
    rcases List.mem_cons.mp hmem with heq | htail
    · rw [← heq]
      simp only [pyValidateProps, hlook]
      rw [pyValidate_type_mismatch val ps t (childPath path k) hty htm hinst]
      simp
    · simp only [pyValidateProps]
      intro hall
      rw [List.append_eq_nil] at hall
      exact ih props path k val ps t htail hlook hty htm hinst hall.2

/-- A non-empty property-loop contribution makes the whole validation fail. -/
theorem pyValidate_props_contrib (params : List (String × Json)) (schema : JSchema)
    (hty : schema.type? = some "object")
    (hne : pyValidateProps params schema.properties "" ≠ []) :
    pyValidate (Json.obj params) schema "" ≠ [] := by
  obtain ⟨ty, en, mi, ma, mil, mal, props, req, its⟩ := schema
  simp only [JSchema.type?] at hty
  subst hty
  simp only [JSchema.properties] at hne
  obtain ⟨x, hx⟩ := List.exists_mem_of_ne_nil _ hne
  apply List.ne_nil_of_mem (a := x)
  have he : earlyTypeErr (some "object") (Json.obj params) "parameter" = none := by
    simp [earlyTypeErr, typeMapHas, pyIsInstance]
  simp only [pyValidate, JSchema.type?, JSchema.enum?, JSchema.minimum?,
    JSchema.maximum?, JSchema.minLength?, JSchema.maxLength?, JSchema.properties,
    JSchema.required, JSchema.items?, he]
  refine List.mem_append.mpr (Or.inl ?_)
  refine List.mem_append.mpr (Or.inr ?_)
  simp only [if_true, reduceIte]
  exact List.mem_append.mpr (Or.inr hx)

/-- A failed validation turns into an `Except.ok` carrying `valid = False`. -/
theorem validate_params_invalid (t : PyTool) (params : List (String × Json))
    (hty : t.parameters.type? = some "object" ∨ t.parameters.type? = none)
    (hne : pyValidate (Json.obj params) t.parameters.withTypeObject "" ≠ []) :
    ∃ v, t.validate_params params = Except.ok v ∧ v.valid = false := by
  cases hl : pyValidate (Json.obj params) t.parameters.withTypeObject "" with
  | nil => exact absurd hl hne
  | cons a rest =>
    refine ⟨⟨false, some (a :: rest)⟩, ?_, rfl⟩
    rcases hty with h | h
    · simp [PyTool.validate_params, h, hl]
    · simp [PyTool.validate_params, h, hl]

/-- C6: `ToolRegistry.execute` never raises — it is a total function into
strings; an unregistered name yields an error string containing that name,
and an exception raised by the tool's execution entry point yields an error
string naming the exception kind and message. -/
theorem spec_c6_execute_never_raises (reg : ToolRegistry) (n : String)
    (params : List (String × Json)) :
    (reg.get_tool n = none →
      reg.execute n params = "Error: Tool '" ++ n ++ "' not found." ∧
      ∃ p q, reg.execute n params = p ++ n ++ q) ∧
    (∀ tool v e, reg.get_tool n = some tool →
      tool.validate_params params = Except.ok v → v.valid = true →
      tool.execute params = Except.error e →
      reg.execute n params =
        "Error: executing '" ++ n ++ "': " ++ e.kind ++ ": " ++ e.msg) := by
  constructor
  · intro h
    have hx : reg.execute n params = "Error: Tool '" ++ n ++ "' not found." := by
      simp [ToolRegistry.execute, h]
    exact ⟨hx, "Error: Tool '", "' not found.", hx⟩
  · intro tool v e htool hval hv hexec
    simp [ToolRegistry.execute, htool, hval, hv, hexec]

/-- A tool whose execution entry point always raises, for the C6 witness. -/
def c6tool : PyTool :=
  ⟨"boom_tool", "always raises", JSchema.empty,
   fun _ => Except.error ⟨"RuntimeError", "kaboom"⟩⟩

/-- Registry holding only `c6tool`. -/
def c6reg : ToolRegistry := ⟨[("boom_tool", c6tool)]⟩

theorem spec_c6_witness :
    (ToolRegistry.mk []).execute "weather" [] = "Error: Tool 'weather' not found." ∧
    c6reg.execute "boom_tool" [] =
      "Error: executing 'boom_tool': RuntimeError: kaboom" := by
  constructor
  · exact ((spec_c6_execute_never_raises ⟨[]⟩ "weather" []).1 rfl).1
  · exact (spec_c6_execute_never_raises c6reg "boom_tool" []).2 c6tool ⟨true, none⟩
      ⟨"RuntimeError", "kaboom"⟩ rfl (validate_params_empty_schema c6tool [] rfl)
      rfl rfl

/-- C7: when the arguments fail the tool's declared schema (in particular when
a required field is missing, or a present field has the wrong type), `execute`
returns the invalid-params error string and never invokes the tool's execution
entry point (the result is the same for every execution entry point). -/
theorem spec_c7_validation_failure (reg : ToolRegistry) (n : String)
    (params : List (String × Json)) :
    (∀ tool v, reg.get_tool n = some tool →
      tool.validate_params params = Except.ok v → v.valid = false →
      (reg.execute n params =
        "Error: Invalid params for tool '" ++ n ++ "': " ++
          pyReprStrList (v.errors.getD []) ∧
       ∀ f, (ToolRegistry.mk (setAssoc reg.tools n
          ⟨tool.name, tool.description, tool.parameters, f⟩)).execute n params =
        "Error: Invalid params for tool '" ++ n ++ "': " ++
          pyReprStrList (v.errors.getD []))) ∧
    (∀ tool k, reg.get_tool n = some tool →
      (tool.parameters.type? = some "object" ∨ tool.parameters.type? = none) →
      k ∈ tool.parameters.required → lookupAssoc params k = none →
      ∃ v, tool.validate_params params = Except.ok v ∧ v.valid = false) ∧
    (∀ tool k val ps t, reg.get_tool n = some tool →
      (tool.parameters.type? = some "object" ∨ tool.parameters.type? = none) →
      (k, val) ∈ params → lookupAssoc tool.parameters.properties k = some ps →
      ps.type? = some t → typeMapHas t = true → pyIsInstance val t = false →
      ∃ v, tool.validate_params params = Except.ok v ∧ v.valid = false) := by
  refine ⟨?_, ?_, ?_⟩
  · intro tool v htool hval hv
    constructor
    · simp [ToolRegistry.execute, htool, hval, hv]
    · intro f
      have hlook : lookupAssoc (setAssoc reg.tools n
          ⟨tool.name, tool.description, tool.parameters, f⟩) n =
          some ⟨tool.name, tool.description, tool.parameters, f⟩ :=
        lookupAssoc_setAssoc_self reg.tools n _
      have hval2 : (PyTool.mk tool.name tool.description tool.parameters
          f).validate_params params = Except.ok v := hval
      simp [ToolRegistry.execute, ToolRegistry.get_tool, hlook, hval2, hv]
  · intro tool k htool hty hk habs
    apply validate_params_invalid tool params hty
    exact pyValidate_missing_required params tool.parameters.withTypeObject
      (withTypeObject_type? _) k (by rw [withTypeObject_required]; exact hk) habs
  · intro tool k val ps t htool hty hmem hlook hpt htm hinst
    apply validate_params_invalid tool params hty
    apply pyValidate_props_contrib params tool.parameters.withTypeObject
      (withTypeObject_type? _)
    rw [withTypeObject_properties]
    exact pyValidateProps_wrong_type params tool.parameters.properties "" k val ps t
      hmem hlook hpt htm hinst

/-- Sub-schema of the C7 witness tool's `city` property. -/
def c7cityschema : JSchema :=
  JSchema.mk (some "string") none none none none none [] [] none

/-- Object schema of the C7 witness tool: one required string field `city`. -/
def c7schema : JSchema :=
  JSchema.mk (some "object") none none none none none
    [("city", c7cityschema)] ["city"] none

/-- Stub tool for the C7 witness. -/
def c7tool : PyTool := ⟨"weather", "get weather", c7schema, fun _ => Except.ok "sunny"⟩

/-- Registry holding only `c7tool`. -/
def c7reg : ToolRegistry := ⟨[("weather", c7tool)]⟩

theorem spec_c7_witness :
    c7reg.execute "weather" [("city", Json.int 5)] =
      "Error: Invalid params for tool 'weather': ['city should be string']" ∧
    (∃ v, c7tool.validate_params [] = Except.ok v ∧ v.valid = false) ∧
    (∃ v, c7tool.validate_params [("city", Json.int 5)] = Except.ok v ∧
      v.valid = false) := by
  have hv : c7tool.validate_params [("city", Json.int 5)] =
      Except.ok ⟨false, some ["city should be string"]⟩ := by
    simp [PyTool.validate_params, c7tool, c7schema, c7cityschema, JSchema.type?,
      JSchema.withTypeObject, pyValidate, pyValidateProps, earlyTypeErr, typeMapHas,
      pyIsInstance, lookupAssoc, childPath, JSchema.enum?, JSchema.minimum?,
      JSchema.maximum?, JSchema.minLength?, JSchema.maxLength?, JSchema.properties,
      JSchema.required, JSchema.items?]
  refine ⟨?_, ?_, ?_⟩
  · have h := ((spec_c7_validation_failure c7reg "weather"
      [("city", Json.int 5)]).1 c7tool ⟨false, some ["city should be string"]⟩
      rfl hv rfl).1
    have hr : pyReprStrList ["city should be string"] =
        "['city should be string']" := by
      simp [pyReprStrList, pyReprJsonArr, pyReprJson]
    simp only [Option.getD_some] at h
    rw [hr] at h
    exact h
  · exact (spec_c7_validation_failure c7reg "weather" []).2.1 c7tool "city" rfl
      (Or.inl rfl) (List.mem_singleton_self "city") rfl
  · exact (spec_c7_validation_failure c7reg "weather" [("city", Json.int 5)]).2.2
      c7tool "city" (Json.int 5) c7cityschema "string" rfl (Or.inl rfl)
      (List.mem_singleton_self ("city", Json.int 5)) rfl rfl rfl rfl

/-- First tool registered under the name `alpha` (C8). -/
def c8tool1 : PyTool := ⟨"alpha", "first", JSchema.empty, fun _ => Except.ok "one"⟩

/-- Second tool carrying the same name `alpha` (C8). -/
def c8tool2 : PyTool := ⟨"alpha", "second", JSchema.empty, fun _ => Except.ok "two"⟩

/-- Registry state after the first registration (C8). -/
def c8reg1 : ToolRegistry := ⟨[("alpha", c8tool1)]⟩

/-- C8 counterexample: the duplicate registration fails, but the exception the
code signals is a plain `ValueError`, not a `DuplicateToolError` — no such
error type exists in the code. -/
theorem spec_c8_counterexample :
    ToolRegistry.register ⟨[]⟩ c8tool1 = Except.ok c8reg1 ∧
    ToolRegistry.register c8reg1 c8tool2 =
      Except.error ⟨"ValueError", "Tool 'alpha' already registered."⟩ ∧
    ("ValueError" : String) ≠ "DuplicateToolError" ∧
    c8reg1.len = 1 ∧
    c8reg1.get_tool "alpha" = some c8tool1 := by
  refine ⟨rfl, rfl, by decide, rfl, rfl⟩

/-- C8 amended: registering a second tool under an already-registered name
fails by raising `ValueError` (message `Tool '<name>' already registered.`),
and the registry is unchanged by the failed call: it still holds exactly one
tool, the originally registered one, under that name. -/
theorem spec_c8_duplicate_registration (t1 t2 : PyTool) (hname : t2.name = t1.name) :
    ToolRegistry.register ⟨[]⟩ t1 = Except.ok ⟨[(t1.name, t1)]⟩ ∧
    ToolRegistry.register ⟨[(t1.name, t1)]⟩ t2 =
      Except.error ⟨"ValueError", "Tool '" ++ t2.name ++ "' already registered."⟩ ∧
    (ToolRegistry.mk [(t1.name, t1)]).len = 1 ∧
    (ToolRegistry.mk [(t1.name, t1)]).get_tool t1.name = some t1 := by
  refine ⟨?_, ?_, rfl, ?_⟩
  · simp [ToolRegistry.register, lookupAssoc]
  · simp [ToolRegistry.register, lookupAssoc, hname]
  · simp [ToolRegistry.get_tool, lookupAssoc]

theorem spec_c8_witness :
    ToolRegistry.register ⟨[]⟩ c8tool1 = Except.ok ⟨[(c8tool1.name, c8tool1)]⟩ ∧
    ToolRegistry.register ⟨[(c8tool1.name, c8tool1)]⟩ c8tool2 =
      Except.error ⟨"ValueError", "Tool '" ++ c8tool2.name ++
        "' already registered."⟩ ∧
    (ToolRegistry.mk [(c8tool1.name, c8tool1)]).len = 1 ∧
    (ToolRegistry.mk [(c8tool1.name, c8tool1)]).get_tool c8tool1.name =
      some c8tool1 :=
  spec_c8_duplicate_registration c8tool1 c8tool2 rfl

/-- Every `tools` argument the nested sub-agent loop records equals the fixed
`toolsArg` computed before the loop. -/
theorem subAgentLoop_trace (llm : Nat → LLMResponse) (reg : ToolRegistry)
    (toolsArg : Option (List ToolSchema)) :
    ∀ (fuel idx : Nat) (msgs : List SessionMsg) (last : Option LLMResponse)
      (trace : List (Option (List ToolSchema))),
    (∀ ts ∈ trace, ts = toolsArg) →
    ∀ ts ∈ (subAgentLoop llm reg toolsArg fuel idx msgs last trace).2,
      ts = toolsArg := by
  intro fuel
  induction fuel with
  | zero =>
    intro idx msgs last trace h ts hts
    exact h ts hts
  | succ fuel ih =>
    intro idx msgs last trace h ts hts
    by_cases hb : (llm idx).has_tool_calls = true
    · simp only [subAgentLoop, hb, if_true] at hts
      refine ih (idx + 1) _ (some (llm idx)) (trace ++ [toolsArg]) ?_ ts hts
      intro x hx
      rcases List.mem_append.mp hx with h1 | h2
      · exact h x h1
      · simpa using h2
    · simp only [subAgentLoop, hb] at hts
      rcases List.mem_append.mp hts with h1 | h2
      · exact h ts h1
      · simpa using h2

/-- C9: the tool-schema list the sub-agent tool passes to its nested loop is
the registry's full schema export with every entry named `sub_agent` removed,
and the `tools` argument of every nested backend call is exactly that filtered
list (or `None` when it is empty) — it never contains the sub-agent tool. -/
theorem spec_c9_subagent_excludes_self (reg : ToolRegistry) (llm : Nat → LLMResponse)
    (task context : String) :
    subAgentToolDefs reg =
      reg.get_definitions.filter (fun t => t.function.name ≠ SUB_AGENT_NAME) ∧
    (∀ ts ∈ (subAgentRun llm reg task context).2,
      ts = (if (subAgentToolDefs reg).isEmpty then none
            else some (subAgentToolDefs reg)) ∧
      ∀ d ∈ ts.getD [], d.function.name ≠ "sub_agent") := by
  refine ⟨rfl, ?_⟩
  intro ts hts
  have h1 : ts = (if (subAgentToolDefs reg).isEmpty then none
      else some (subAgentToolDefs reg)) := by
    by_cases ht : pyStrip task = ""
    · simp [subAgentRun, ht] at hts
    · simp only [subAgentRun, if_neg ht] at hts
      exact subAgentLoop_trace llm reg _ MAX_SUB_AGENT_ITERATIONS 0 _ none []
        (by intro x hx; simp at hx) ts hts
  refine ⟨h1, ?_⟩
  intro d hd
  rw [h1] at hd
  by_cases he : (subAgentToolDefs reg).isEmpty
  · simp [he] at hd
  · simp only [he, Bool.false_eq_true, if_false, Option.getD_some] at hd
    have h2 := (List.mem_filter.mp hd).2
    simpa [SUB_AGENT_NAME] using h2

/-- Ordinary tool for the C9 witness registry. -/
def c9dummy : PyTool := ⟨"date_time", "clock", JSchema.empty, fun _ => Except.ok "now"⟩

/-- Sub-agent entry in the C9 witness registry. -/
def c9sub : PyTool := ⟨"sub_agent", "nested", JSchema.empty, fun _ => Except.ok "sub"⟩

/-- C9 witness registry holding a normal tool and the sub-agent tool. -/
def c9reg : ToolRegistry := ⟨[("date_time", c9dummy), ("sub_agent", c9sub)]⟩

/-- Backend stub for the C9 witness: immediate plain answer. -/
def c9llm : Nat → LLMResponse := fun _ => ⟨some "done", []⟩

theorem spec_c9_witness :
    (some (subAgentToolDefs c9reg) =
      (if (subAgentToolDefs c9reg).isEmpty then none
       else some (subAgentToolDefs c9reg)) ∧
     ∀ d ∈ (some (subAgentToolDefs c9reg)).getD [],
       d.function.name ≠ "sub_agent") :=
  (spec_c9_subagent_excludes_self c9reg c9llm "do it" "").2
    (some (subAgentToolDefs c9reg)) (List.mem_singleton_self _)

/-- One loop round whose response carries tool calls: append the assistant
entry, run the tools, and continue with one unit of budget spent. -/
theorem loopIter_step_tools (llm : Nat → LLMResponse) (reg : ToolRegistry)
    (cid : String) (fuel callIdx : Nat) (msgs : List SessionMsg)
    (sess : SessionManager) (last : Option LLMResponse)
    (trace : List (String × List (String × Json)))
    (h : (llm callIdx).has_tool_calls = true) :
    loopIter llm reg cid (fuel + 1) callIdx msgs sess last trace =
      loopIter llm reg cid fuel (callIdx + 1)
        (execTools reg cid (llm callIdx).tool_calls
          (msgs ++ [mkSessionMsg "assistant"
            (if strTruthy (llm callIdx).content then (llm callIdx).content else none)
            (some ((llm callIdx).tool_calls.map serializeToolCall)) none none],
           sess.add_message cid "assistant" (llm callIdx).content
             (some ((llm callIdx).tool_calls.map serializeToolCall)) none none,
           trace)).1
        (execTools reg cid (llm callIdx).tool_calls
          (msgs ++ [mkSessionMsg "assistant"
            (if strTruthy (llm callIdx).content then (llm callIdx).content else none)
            (some ((llm callIdx).tool_calls.map serializeToolCall)) none none],
           sess.add_message cid "assistant" (llm callIdx).content
             (some ((llm callIdx).tool_calls.map serializeToolCall)) none none,
           trace)).2.1
        (some (llm callIdx))
        (execTools reg cid (llm callIdx).tool_calls
          (msgs ++ [mkSessionMsg "assistant"
            (if strTruthy (llm callIdx).content then (llm callIdx).content else none)
            (some ((llm callIdx).tool_calls.map serializeToolCall)) none none],
           sess.add_message cid "assistant" (llm callIdx).content
             (some ((llm callIdx).tool_calls.map serializeToolCall)) none none,
           trace)).2.2 := by
  simp only [loopIter, h, if_true]

/-- One loop round whose response has no tool calls: terminal success. -/
theorem loopIter_step_final (llm : Nat → LLMResponse) (reg : ToolRegistry)
    (cid : String) (fuel callIdx : Nat) (msgs : List SessionMsg)
    (sess : SessionManager) (last : Option LLMResponse)
    (trace : List (String × List (String × Json)))
    (h : (llm callIdx).has_tool_calls = false) :
    loopIter llm reg cid (fuel + 1) callIdx msgs sess last trace =
      ⟨pyOrStr (llm callIdx).content emptyAnswerMsg,
       sess.add_message cid "assistant"
         (some (pyOrStr (llm callIdx).content emptyAnswerMsg)) none none none,
       callIdx + 1, trace⟩ := by
  simp only [loopIter, h, Bool.false_eq_true, if_false]

/-- Appending a non-system message to a non-overflowing history appends. -/
theorem get_history_add_nonsys (sm : SessionManager) (cid role : String)
    (content : Option String) (tcs : Option (List SerToolCall))
    (tcid nm : Option String)
    (hrole : role ≠ "system")
    (hlen : (sm.get_history cid).length + 1 ≤ sm.max_history)
    (hprev : ∀ m ∈ sm.get_history cid, m.role ≠ "system") :
    (sm.add_message cid role content tcs tcid nm).get_history cid =
      sm.get_history cid ++ [mkSessionMsg role content tcs tcid nm] := by
  rw [get_history_add]
  apply trimList_no_drop
  · intro m hm
    rcases List.mem_append.mp hm with h1 | h2
    · exact hprev m h1
    · rw [List.mem_singleton.mp h2]
      exact hrole
  · simp only [List.length_append, List.length_singleton]
    omega

/-- C1: with a fresh session, when the backend first returns exactly one
tool-call request with no text and then a final text `t`, the loop calls the
backend exactly twice, executes the requested call through the registry (in
the order returned — here the singleton), records the four session entries,
replies with `t`, and the outbound message carries `t`. -/
theorem spec_c1_single_tool_roundtrip
    (llm : Nat → LLMResponse) (reg : ToolRegistry) (sm : SessionManager)
    (msg : InboundMessage) (tc : ToolCallReq) (t : String)
    (hcmd : ¬ lookupAssoc msg.metadata "command" = some "clear")
    (hfresh : sm.get_history msg.chat_id = [])
    (hM : 4 ≤ sm.max_history)
    (h0 : llm 0 = ⟨none, [tc]⟩)
    (h1 : llm 1 = ⟨some t, []⟩)
    (ht : t ≠ "") :
    (processMessage llm reg sm msg).reply = t ∧
    (processMessage llm reg sm msg).llmCalls = 2 ∧
    (processMessage llm reg sm msg).toolTrace = [(tc.name, tc.arguments)] ∧
    ((processMessage llm reg sm msg).sess.get_history msg.chat_id).map
      SessionMsg.role = ["user", "assistant", "tool", "assistant"] ∧
    (handleMessage llm reg sm msg).1.content = t := by
  have htc0 : (llm 0).has_tool_calls = true := by
    simp [h0, LLMResponse.has_tool_calls]
  have htc1 : (llm (0 + 1)).has_tool_calls = false := by
    simp [h1, LLMResponse.has_tool_calls]
  have hone : processMessage llm reg sm msg =
      ⟨t,
       ((((sm.add_message msg.chat_id "user" (some (userContent msg)) none none none
         ).add_message msg.chat_id "assistant" none
            (some [serializeToolCall tc]) none none
         ).add_message msg.chat_id "tool"
            (some (reg.execute tc.name tc.arguments)) none (some tc.id)
            (some tc.name)
         ).add_message msg.chat_id "assistant" (some t) none none none),
       2, [(tc.name, tc.arguments)]⟩ := by
    simp only [processMessage, if_neg hcmd]
    rw [show MAX_TOOL_ITERATIONS = 9 + 1 from rfl]
    rw [loopIter_step_tools llm reg msg.chat_id 9 0 _ _ _ _ htc0]
    simp only [h0]
    simp only [execTools, strTruthy]
    rw [show (9 : Nat) = 8 + 1 from rfl]
    rw [loopIter_step_final llm reg msg.chat_id 8 (0 + 1) _ _ _ _ htc1]
    simp [h1, pyOrStr, ht]
  refine ⟨by rw [hone], by rw [hone], by rw [hone], ?_, ?_⟩
  · rw [hone]
    set u := mkSessionMsg "user" (some (userContent msg)) none none none with hu
    set a1 := mkSessionMsg "assistant" none (some [serializeToolCall tc]) none none
      with ha1
    set w := mkSessionMsg "tool" (some (reg.execute tc.name tc.arguments)) none
      (some tc.id) (some tc.name) with hw
    set a2 := mkSessionMsg "assistant" (some t) none none none with ha2
    have g1 : (sm.add_message msg.chat_id "user" (some (userContent msg)) none none
        none).get_history msg.chat_id = [u] := by
      rw [get_history_add_nonsys sm msg.chat_id "user" (some (userContent msg))
        none none none (by decide) (by rw [hfresh]; simp [max_history_add]; omega)
        (by rw [hfresh]; intro m hm; simp at hm)]
      rw [hfresh, hu]
      rfl
    have g2 : ((sm.add_message msg.chat_id "user" (some (userContent msg)) none none
        none).add_message msg.chat_id "assistant" none (some [serializeToolCall tc])
        none none).get_history msg.chat_id = [u, a1] := by
      rw [get_history_add_nonsys _ msg.chat_id "assistant" none
        (some [serializeToolCall tc]) none none (by decide)
        (by rw [g1]; simp [max_history_add]; omega)
        (by rw [g1]; intro m hm; rw [List.mem_singleton.mp hm, hu]; simp [mkSessionMsg])]
      rw [g1, ha1]
      rfl
    have g3 : (((sm.add_message msg.chat_id "user" (some (userContent msg)) none none
        none).add_message msg.chat_id "assistant" none (some [serializeToolCall tc])
        none none).add_message msg.chat_id "tool"
        (some (reg.execute tc.name tc.arguments)) none (some tc.id)
        (some tc.name)).get_history msg.chat_id = [u, a1, w] := by
      rw [get_history_add_nonsys _ msg.chat_id "tool"
        (some (reg.execute tc.name tc.arguments)) none (some tc.id) (some tc.name)
        (by decide) (by rw [g2]; simp [max_history_add]; omega)
        (by rw [g2]; intro m hm
            rcases List.mem_cons.mp hm with h2 | h2
            · rw [h2, hu]; simp [mkSessionMsg]
            · rw [List.mem_singleton.mp h2, ha1]; simp [mkSessionMsg])]
      rw [g2, hw]
      rfl
    have g4 : ((((sm.add_message msg.chat_id "user" (some (userContent msg)) none
        none none).add_message msg.chat_id "assistant" none
        (some [serializeToolCall tc]) none none).add_message msg.chat_id "tool"
        (some (reg.execute tc.name tc.arguments)) none (some tc.id)
        (some tc.name)).add_message msg.chat_id "assistant" (some t) none none
        none).get_history msg.chat_id = [u, a1, w, a2] := by
      rw [get_history_add_nonsys _ msg.chat_id "assistant" (some t) none none none
        (by decide) (by rw [g3]; simp [max_history_add]; omega)
        (by rw [g3]; intro m hm
            rcases List.mem_cons.mp hm with h2 | h2
            · rw [h2, hu]; simp [mkSessionMsg]
            · rcases List.mem_cons.mp h2 with h3 | h3
              · rw [h3, ha1]; simp [mkSessionMsg]
              · rw [List.mem_singleton.mp h3, hw]; simp [mkSessionMsg])]
      rw [g3, ha2]
      rfl
    dsimp only
    rw [g4, hu, ha1, hw, ha2]
    rfl
  · show (processMessage llm reg sm msg).reply = t
    rw [hone]

/-- Scenario-B backend stub: one `date_time` call, then the final text. -/
def c1llm : Nat → LLMResponse := fun i =>
  if i = 0 then ⟨none, [⟨"call_1", "date_time", []⟩]⟩
  else ⟨some "The current time is 3:00 PM.", []⟩

/-- Scenario-B inbound message. -/
def c1msg : InboundMessage :=
  ⟨"telegram", "what time is it?", "u1", "c", 0, [], none, []⟩

/-- Fresh session store for Scenario B. -/
def c1sm : SessionManager := ⟨[], 50⟩

/-- The tool call the Scenario-B stub requests. -/
def c1tc : ToolCallReq := ⟨"call_1", "date_time", []⟩

theorem spec_c1_witness :
    (processMessage c1llm ⟨[]⟩ c1sm c1msg).reply = "The current time is 3:00 PM." ∧
    (processMessage c1llm ⟨[]⟩ c1sm c1msg).llmCalls = 2 ∧
    (processMessage c1llm ⟨[]⟩ c1sm c1msg).toolTrace = [("date_time", [])] ∧
    ((processMessage c1llm ⟨[]⟩ c1sm c1msg).sess.get_history "c").map
      SessionMsg.role = ["user", "assistant", "tool", "assistant"] ∧
    (handleMessage c1llm ⟨[]⟩ c1sm c1msg).1.content =
      "The current time is 3:00 PM." := by
  have h := spec_c1_single_tool_roundtrip c1llm ⟨[]⟩ c1sm c1msg c1tc
    "The current time is 3:00 PM." (by decide) rfl (by decide) rfl rfl (by decide)
  exact ⟨h.1, h.2.1, h.2.2.1, h.2.2.2.1, h.2.2.2.2⟩

/-- Tool executions do not change the configured history maximum. -/
theorem execTools_max (reg : ToolRegistry) (cid : String) :
    ∀ (l : List ToolCallReq) (m : List SessionMsg) (s : SessionManager)
      (tr : List (String × List (String × Json))),
    ((execTools reg cid l (m, s, tr)).2.1).max_history = s.max_history := by
  intro l
  induction l with
  | nil => intro m s tr; rfl
  | cons tc rest ih =>
    intro m s tr
    simp only [execTools]
    rw [ih]
    rfl

/-- `pyOrStr` against a non-empty default never returns the empty string. -/
theorem pyOrStr_ne_empty (x : Option String) (d : String) (hd : d ≠ "") :
    pyOrStr x d ≠ "" := by
  cases x with
  | none => simp [pyOrStr]; exact hd
  | some s =>
    simp only [pyOrStr]
    by_cases hs : s = ""
    · rw [if_pos hs]; exact hd
    · rw [if_neg hs]; exact hs

/-- Appending a non-system entry leaves it as the last element of the trimmed
history whenever at least one non-system entry is retained. -/
theorem trimList_append_getLast (h : List SessionMsg) (m : SessionMsg) (M : Nat)
    (hrole : m.role ≠ "system") (hM : 1 ≤ M) :
    (trimList (h ++ [m]) M).getLast? = some m := by
  rw [trimList_eq_form]
  have hfs : List.filter (fun x => decide (x.role = "system")) [m] = [] := by
    simp [hrole]
  have hfc : List.filter (fun x => decide (x.role ≠ "system")) [m] = [m] := by
    simp [hrole]
  rw [List.filter_append, List.filter_append, hfs, hfc, List.append_nil]
  set c := h.filter (fun x => decide (x.role ≠ "system")) with hc
  have hlen : (c ++ [m]).length - M ≤ c.length := by
    simp only [List.length_append, List.length_singleton]
    omega
  rw [List.drop_append_of_le_length hlen]
  rw [show h.filter (fun x => decide (x.role = "system")) ++
      (c.drop ((c ++ [m]).length - M) ++ [m]) =
      (h.filter (fun x => decide (x.role = "system")) ++
        c.drop ((c ++ [m]).length - M)) ++ [m] from (List.append_assoc _ _ _).symm]
  exact List.getLast?_concat _

/-- When every response in the remaining budget requests tools, the loop burns
the whole budget, ends with the degraded fallback derived from the last
response, and records it as a final assistant entry. -/
theorem loopIter_budget (llm : Nat → LLMResponse) (reg : ToolRegistry)
    (cid : String) :
    ∀ (fuel idx : Nat) (msgs : List SessionMsg) (sess : SessionManager)
      (last : Option LLMResponse) (trace : List (String × List (String × Json))),
    (∀ i, i < idx + fuel → (llm i).has_tool_calls = true) →
    ∃ (s : SessionManager) (tr : List (String × List (String × Json))),
      loopIter llm reg cid fuel idx msgs sess last trace =
      ⟨pyOrStr ((if fuel = 0 then last else some (llm (idx + fuel - 1))).bind
          (fun r => r.content)) limitReachedMsg,
       s.add_message cid "assistant"
         (some (pyOrStr ((if fuel = 0 then last else some (llm (idx + fuel - 1))).bind
           (fun r => r.content)) limitReachedMsg)) none none none,
       idx + fuel, tr⟩ ∧ s.max_history = sess.max_history := by
  intro fuel
  induction fuel with
  | zero =>
    intro idx msgs sess last trace hall
    exact ⟨sess, trace, rfl, rfl⟩
  | succ fuel ih =>
    intro idx msgs sess last trace hall
    have htc : (llm idx).has_tool_calls = true := hall idx (by omega)
    rw [loopIter_step_tools llm reg cid fuel idx msgs sess last trace htc]
    obtain ⟨s, tr, heq, hmax⟩ := ih (idx + 1) _ _ (some (llm idx)) _
      (fun i hi => hall i (by omega))
    have hidx : (if fuel = 0 then some (llm idx)
        else some (llm (idx + 1 + fuel - 1))).bind (fun r => r.content) =
        (some (llm (idx + (fuel + 1) - 1))).bind (fun r => r.content) := by
      cases fuel with
      | zero => simp
      | succ n =>
        have : idx + 1 + (n + 1) - 1 = idx + (n + 1 + 1) - 1 := by omega
        simp [this]
    rw [heq]
    refine ⟨s, tr, ?_, ?_⟩
    · rw [hidx]
      have harith : idx + 1 + fuel = idx + (fuel + 1) := by omega
      rw [harith]
      simp
    · rw [hmax, execTools_max]
      rfl

/-- C2 amended: when the backend returns tool-call requests on every call, the
loop makes exactly 10 backend calls and no more, terminates, records a final
assistant entry and returns a non-empty text — the final (tenth) response's
text content if non-empty, otherwise the fixed limit-reached message — which
is published as the outbound reply. -/
theorem spec_c2_budget_exhaustion (llm : Nat → LLMResponse) (reg : ToolRegistry)
    (sm : SessionManager) (msg : InboundMessage)
    (hcmd : ¬ lookupAssoc msg.metadata "command" = some "clear")
    (htools : ∀ i, i < 10 → (llm i).has_tool_calls = true)
    (hM : 1 ≤ sm.max_history) :
    (processMessage llm reg sm msg).llmCalls = 10 ∧
    (processMessage llm reg sm msg).reply =
      pyOrStr (llm 9).content limitReachedMsg ∧
    (processMessage llm reg sm msg).reply ≠ "" ∧
    ((processMessage llm reg sm msg).sess.get_history msg.chat_id).getLast? =
      some (mkSessionMsg "assistant"
        (some ((processMessage llm reg sm msg).reply)) none none none) ∧
    (handleMessage llm reg sm msg).1.content =
      (processMessage llm reg sm msg).reply := by
  have hpm : processMessage llm reg sm msg =
      loopIter llm reg msg.chat_id MAX_TOOL_ITERATIONS 0
        (contextBuild SYSTEM_PROMPT
          (sm.add_message msg.chat_id "user" (some (userContent msg)) none none none)
          msg.chat_id)
        (sm.add_message msg.chat_id "user" (some (userContent msg)) none none none)
        none [] := by
    simp only [processMessage, if_neg hcmd]
  obtain ⟨s, tr, heq, hmax⟩ := loopIter_budget llm reg msg.chat_id 10 0
    (contextBuild SYSTEM_PROMPT
      (sm.add_message msg.chat_id "user" (some (userContent msg)) none none none)
      msg.chat_id)
    (sm.add_message msg.chat_id "user" (some (userContent msg)) none none none)
    none [] (fun i hi => htools i (by omega))
  have heq2 : processMessage llm reg sm msg =
      ⟨pyOrStr (llm 9).content limitReachedMsg,
       s.add_message msg.chat_id "assistant"
         (some (pyOrStr (llm 9).content limitReachedMsg)) none none none,
       10, tr⟩ := by
    rw [hpm]
    exact heq
  have hsmax : 1 ≤ s.max_history := by
    rw [hmax, max_history_add]
    exact hM
  refine ⟨by rw [heq2], by rw [heq2], ?_, ?_, ?_⟩
  · rw [heq2]
    exact pyOrStr_ne_empty _ _ (by decide)
  · rw [heq2]
    dsimp only
    rw [get_history_add]
    exact trimList_append_getLast _ _ _ (by simp [mkSessionMsg]) hsmax
  · show (processMessage llm reg sm msg).reply = (processMessage llm reg sm msg).reply
    rfl

/-- The tool call every response of the C2 stub requests. -/
def c2tc : ToolCallReq := ⟨"c1", "date_time", []⟩

/-- C2 backend stub: always requests a tool call; text on the first nine
responses, no text on the tenth. -/
def c2llm : Nat → LLMResponse := fun i =>
  if i < 9 then ⟨some "working on it", [c2tc]⟩ else ⟨none, [c2tc]⟩

/-- C2 inbound message. -/
def c2msg : InboundMessage := ⟨"telegram", "hi", "u1", "chat9", 0, [], none, []⟩

/-- Fresh session store for C2. -/
def c2sm : SessionManager := ⟨[], 50⟩

/-- C2 counterexample: text ("working on it") was seen on earlier responses —
it is the last text content seen — yet the loop replies with the fixed
limit-reached message, because the code consults only the final response's
content. -/
theorem spec_c2_counterexample :
    (processMessage c2llm ⟨[]⟩ c2sm c2msg).llmCalls = 10 ∧
    (c2llm 8).content = some "working on it" ∧
    (c2llm 9).content = none ∧
    (c2llm 9).has_tool_calls = true ∧
    (processMessage c2llm ⟨[]⟩ c2sm c2msg).reply = limitReachedMsg ∧
    (processMessage c2llm ⟨[]⟩ c2sm c2msg).reply ≠ "working on it" := by
  refine ⟨rfl, rfl, rfl, rfl, rfl, by decide⟩

theorem spec_c2_witness :
    (processMessage c2llm ⟨[]⟩ c2sm c2msg).llmCalls = 10 ∧
    (processMessage c2llm ⟨[]⟩ c2sm c2msg).reply =
      pyOrStr (c2llm 9).content limitReachedMsg ∧
    (processMessage c2llm ⟨[]⟩ c2sm c2msg).reply ≠ "" ∧
    ((processMessage c2llm ⟨[]⟩ c2sm c2msg).sess.get_history "chat9").getLast? =
      some (mkSessionMsg "assistant"
        (some ((processMessage c2llm ⟨[]⟩ c2sm c2msg).reply)) none none none) ∧
    (handleMessage c2llm ⟨[]⟩ c2sm c2msg).1.content =
      (processMessage c2llm ⟨[]⟩ c2sm c2msg).reply :=
  spec_c2_budget_exhaustion c2llm ⟨[]⟩ c2sm c2msg (by decide) (by decide) (by decide)
